import Mathlib

/-!
VectorAudio: station registry, deferred queues, event bridge, transmit snapshot

Shallow embedding of `src/application.cpp` (namespace `vector_audio::application`).

* The globals of `vector_audio::shared` and the members of `App` that the modelled
  code touches are the fields of `App`.
* The voice engine (`mClient_`, an `afv_native::api::atcClient`) is an external
  collaborator.  It is modelled as an abstract state machine `Engine σ`: queries are
  functions of the engine state, commands are values of `Cmd` executed by `Engine.exec`.
  Every command the application issues is also appended to `App.issued`.
* Frequencies are C++ `int` / `unsigned int`; they are modelled as `Int` (the code
  performs no arithmetic on them, only comparisons and calls into `util.h`).
* `util.h` and `shared.h` are not part of the source at hand; what the code uses from
  them is collected in `Util` and passed as a parameter.
-/

namespace VectorAudio

/-! ## Data model -/

/-- One tracked frequency (`shared::StationElement`). -/
structure StationElement where
  callsign : String
  freq : Int
  human_freq : String
  transceivers : Int
deriving DecidableEq, Repr

/-- Declarations the source uses from `util.h` and `shared.h`, which are not part of the
source at hand.  They are parameters of the embedding. -/
structure Util where
  /-- Helper `util::isValid8_33kHzChannel`. -/
  isValid8_33kHzChannel : Int → Bool
  /-- Helper `util::round8_33kHzChannel`. -/
  round8_33kHzChannel : Int → Int
  /-- Helper `util::cleanUpFrequency`. -/
  cleanUpFrequency : Int → Int
  /-- Helper `util::ReplaceString (subject, search, replace)`. -/
  ReplaceString : String → String → String → String
  /-- Helper `util::startsWith (str, start)`. -/
  startsWith : String → String → Bool
  /-- Display string that `StationElement::build` derives from the frequency. -/
  humanFrequency : Int → String
  /-- Constant `shared::kUnicomFrequency`. -/
  kUnicomFrequency : Int
  /-- Constant `shared::kClientName`. -/
  kClientName : String

/-- Modelled from the spec: `StationElement::build` (declared in `shared.h`, which is not
part of the source at hand).  Per the data model an element carries the callsign, the
frequency it was built with, a display string derived from that frequency, and a
transceiver count of `-1` ("unknown / not yet fetched"). -/
def StationElement.build (U : Util) (callsign : String) (freq : Int) : StationElement :=
  { callsign := callsign, freq := freq, human_freq := U.humanFrequency freq, transceivers := -1 }

/-- State-changing calls made on the voice engine (`mClient_->...`).  Floating point
arguments (positions) are not recorded; the radio gain is recorded as the integer
`shared::RadioGain` it is computed from. -/
inductive Cmd where
  | AddFrequency (freq : Int) (callsign : String)
  | RemoveFrequency (freq : Int)
  | SetRx (freq : Int) (enabled : Bool)
  | SetTx (freq : Int) (enabled : Bool)
  | SetXc (freq : Int) (enabled : Bool)
  | SetPtt (enabled : Bool)
  | SetEnableInputFilters (enabled : Bool)
  | SetEnableOutputEffects (enabled : Bool)
  | UseTransceiversFromStation (callsign : String) (freq : Int)
  | FetchStationVccs (callsign : String)
  | GetStation (callsign : String)
  | SetRadiosGain (radioGain : Int)
  | SetClientPosition
  | StopAtisPlayback
  | Disconnect
deriving DecidableEq, Repr

/-- The voice engine collaborator: its queries, and how a command changes its state. -/
structure Engine (σ : Type) where
  IsVoiceConnected : σ → Bool
  IsAPIConnected : σ → Bool
  IsAtisPlayingBack : σ → Bool
  IsFrequencyActive : σ → Int → Bool
  GetRxState : σ → Int → Bool
  GetRxActive : σ → Int → Bool
  GetTxState : σ → Int → Bool
  GetTxActive : σ → Int → Bool
  LastTransmitOnFreq : σ → Int → String
  GetTransceiverCountForStation : σ → String → Int
  exec : σ → Cmd → σ

/-- The mutable state of the application: the `shared::` globals and `App` members used by
the modelled code, the engine state, and the log of commands issued to the engine. -/
structure App (σ : Type) where
  mClient_ : σ
  issued : List Cmd
  FetchedStations : List StationElement
  StationsPendingRemoval : List Int
  StationsPendingRxChange : List Int
  bootUpVccs : Bool
  isPttOpen : Bool
  showErrorModal_ : Bool
  lastErrorModalMessage_ : String
  manuallyDisconnected_ : Bool
  disconnectWarningSoundAvailable_ : Bool
  soundPlayed : Nat
  currentlyTransmittingApiData : String
  currentlyTransmittingApiTimer : Int
  session_callsign : String
  session_frequency : Int
  session_facility : Int
  session_is_connected : Bool
  station_auto_add_callsign : String
  mInputFilter : Bool
  mOutputEffects : Bool
  RadioGain : Int
  ptt : Int
  joyStickId : Int
  joyStickPtt : Int

/-- Issue a command to the engine: the engine state advances and the command is logged. -/
def App.call {σ : Type} (E : Engine σ) (s : App σ) (c : Cmd) : App σ :=
  { s with mClient_ := E.exec s.mClient_ c, issued := s.issued ++ [c] }

/-! ## Station registry -/

/-- Member `App::frequencyExists`: `std::find_if` over `shared::FetchedStations` differs from
`end()`. -/
def frequencyExists (FetchedStations : List StationElement) (freq : Int) : Bool :=
  (FetchedStations.find? (fun obj => obj.freq == freq)).isSome

/-- The guarded insert `if (!frequencyExists(el.freq)) FetchedStations.push_back(el);`
(lines 287-288, 410-411, 474-475). -/
def insertIfAbsent (FetchedStations : List StationElement) (el : StationElement) :
    List StationElement :=
  if !frequencyExists FetchedStations el.freq then FetchedStations ++ [el] else FetchedStations

/-- Member `App::errorModal`. -/
def App.errorModal {σ : Type} (s : App σ) (message : String) : App σ :=
  { s with showErrorModal_ := true, lastErrorModalMessage_ := message }

/-! ## Event bridge -/

/-- The event kinds of `afv_native::ClientEventType` that `App::eventCallback` tests for;
`Other` stands for every kind it ignores. -/
inductive ClientEventType where
  | VccsReceived
  | StationTransceiversUpdated
  | APIServerError
  | AudioError
  | VoiceServerDisconnected
  | VoiceServerError
  | VoiceServerChannelError
  | StationDataReceived
  | Other
deriving DecidableEq, Repr

/-- The categories of `afv_native::afv::APISessionError`: the seven error categories that
`eventCallback` names, and the value `NoError` of the library, which it does not name. -/
inductive APISessionError where
  | NoError
  | ConnectionError
  | BadRequestOrClientIncompatible
  | RejectedCredentials
  | BadPassword
  | OtherRequestError
  | InvalidAuthToken
  | AuthTokenExpiryTimeInPast
deriving DecidableEq, Repr

/-- What a non-null `void*` payload of `eventCallback` points to. -/
inductive Pointee where
  | ofBool (b : Bool)
  | ofInt (n : Int)
  | ofString (str : String)
  | ofSessionError (err : APISessionError)
  | ofStationMap (stations : List (String × Int))
  | ofStation (station : String × Int)
deriving DecidableEq, Repr

/-- Undefined behaviour of a read: of a payload through a null pointer or through a pointer
to an object of another type; of the last character (`back()`) of an empty string. -/
inductive Fault where
  | nullDeref
  | badCast
  | emptyBack
deriving DecidableEq, Repr

/-- Body of the loop `for (auto s : stations)` of the `VccsReceived` branch (lines 280-289);
the list is the map in iteration order. -/
def vccsLoop (U : Util) : List (String × Int) → List StationElement → List StationElement
  | [], FetchedStations => FetchedStations
  | s :: rest, FetchedStations =>
    let second := if !U.isValid8_33kHzChannel s.2 then U.round8_33kHzChannel s.2 else s.2
    let el := StationElement.build U s.1 second
    vccsLoop U rest
      (if !frequencyExists FetchedStations el.freq then FetchedStations ++ [el]
       else FetchedStations)

/-- The `VccsReceived` branch once both payloads are known to be present (lines 275-290). -/
def onVccsReceived {σ : Type} (U : Util) (E : Engine σ) (s : App σ)
    (stations : List (String × Int)) : App σ :=
  if E.IsVoiceConnected s.mClient_ then
    { s with FetchedStations := vccsLoop U stations s.FetchedStations }
  else s

/-- Assignment through the iterator returned by `std::find_if`: the first element that
satisfies `p` is replaced by its image under `f`; nothing changes when there is none. -/
def updateFirst (p : StationElement → Bool) (f : StationElement → StationElement) :
    List StationElement → List StationElement
  | [] => []
  | x :: xs => if p x then f x :: xs else x :: updateFirst p f xs

/-- The `StationTransceiversUpdated` branch once the payload is known to be present
(lines 297-303). -/
def onStationTransceiversUpdated {σ : Type} (E : Engine σ) (s : App σ) (station : String) :
    App σ :=
  let count := E.GetTransceiverCountForStation s.mClient_ station
  let stations := updateFirst (fun fs => fs.callsign == station)
    (fun fs => { fs with transceivers := count }) s.FetchedStations
  { s with FetchedStations := stations }

/-- The `APIServerError` branch once the payload is known to be present (lines 310-363):
six independent tests on the category. -/
def onAPIServerError {σ : Type} (s : App σ) (err : APISessionError) : App σ :=
  let s := if err = .BadPassword ∨ err = .RejectedCredentials then
      s.errorModal "Could not login to VATSIM.\nInvalid Credentials.\nCheck your password/cid!"
    else s
  let s := if err = .ConnectionError then
      s.errorModal "Could not login to VATSIM.\nConnection Error.\nCheck your internet connection."
    else s
  let s := if err = .BadRequestOrClientIncompatible then
      s.errorModal "Could not login to VATSIM.\n Bad Request or Client Incompatible."
    else s
  let s := if err = .InvalidAuthToken then
      s.errorModal "Could not login to VATSIM.\n Invalid Auth Token."
    else s
  let s := if err = .AuthTokenExpiryTimeInPast then
      s.errorModal "Could not login to VATSIM.\n Auth Token has expired.\n Check your system clock."
    else s
  if err = .OtherRequestError then
    s.errorModal "Could not login to VATSIM.\n Unknown Error."
  else s

/-- The `VoiceServerDisconnected` branch (lines 373-381). -/
def onVoiceServerDisconnected {σ : Type} (s : App σ) : App σ :=
  if !s.disconnectWarningSoundAvailable_ then s
  else
    let s := if !s.manuallyDisconnected_ then { s with soundPlayed := s.soundPlayed + 1 } else s
    { s with manuallyDisconnected_ := false }

/-- The `found` arm of the `StationDataReceived` branch (lines 401-411). -/
def onStationFound {σ : Type} (U : Util) (s : App σ) (station : String × Int) : App σ :=
  let second := U.cleanUpFrequency station.2
  let el := StationElement.build U station.1 second
  if !frequencyExists s.FetchedStations el.freq then
    { s with FetchedStations := s.FetchedStations ++ [el] }
  else s

/-- The `else` arm of the `StationDataReceived` branch (lines 413-415). -/
def onStationNotFound {σ : Type} (s : App σ) : App σ :=
  s.errorModal "Could not find station in database."

/-- Read `*reinterpret_cast<bool*>(p)`. -/
def readBool : Option Pointee → Except Fault Bool
  | none => .error .nullDeref
  | some (.ofBool b) => .ok b
  | some _ => .error .badCast

/-- Read `*reinterpret_cast<int*>(p)`. -/
def readInt : Option Pointee → Except Fault Int
  | none => .error .nullDeref
  | some (.ofInt n) => .ok n
  | some _ => .error .badCast

/-- Read `*reinterpret_cast<std::string*>(p)`. -/
def readString : Option Pointee → Except Fault String
  | none => .error .nullDeref
  | some (.ofString str) => .ok str
  | some _ => .error .badCast

/-- Read `*reinterpret_cast<afv_native::afv::APISessionError*>(p)`. -/
def readSessionError : Option Pointee → Except Fault APISessionError
  | none => .error .nullDeref
  | some (.ofSessionError err) => .ok err
  | some _ => .error .badCast

/-- Read `*reinterpret_cast<std::map<std::string, unsigned int>*>(p)`. -/
def readStationMap : Option Pointee → Except Fault (List (String × Int))
  | none => .error .nullDeref
  | some (.ofStationMap stations) => .ok stations
  | some _ => .error .badCast

/-- Read `*reinterpret_cast<std::pair<std::string, unsigned int>*>(p)`. -/
def readStation : Option Pointee → Except Fault (String × Int)
  | none => .error .nullDeref
  | some (.ofStation station) => .ok station
  | some _ => .error .badCast

/-- Member `App::eventCallback (evt, data, data2)` (lines 268-419).  The tests on `evt` are
mutually exclusive, so the chain of `if` statements is a case distinction. -/
def eventCallback {σ : Type} (U : Util) (E : Engine σ) (s : App σ) (evt : ClientEventType)
    (data data2 : Option Pointee) : Except Fault (App σ) :=
  match evt with
  | .VccsReceived =>
    if data.isSome && data2.isSome then
      (readStationMap data2).map (fun stations => onVccsReceived U E s stations)
    else .ok s
  | .StationTransceiversUpdated =>
    if data.isSome then
      (readString data).map (fun station => onStationTransceiversUpdated E s station)
    else .ok s
  | .APIServerError =>
    if data.isSome then (readSessionError data).map (fun err => onAPIServerError s err)
    else .ok s
  | .AudioError =>
    .ok (s.errorModal
      "Error starting audio devices.\nPlease check your log file for details.\nCheck your audio config!")
  | .VoiceServerDisconnected => .ok (onVoiceServerDisconnected s)
  | .VoiceServerError =>
    (readInt data).map (fun err_code =>
      s.errorModal ("Voice server returned error " ++ toString err_code
        ++ ", please check the log file."))
  | .VoiceServerChannelError =>
    (readInt data).map (fun err_code =>
      s.errorModal ("Voice server returned channel error " ++ toString err_code
        ++ ", please check the log file."))
  | .StationDataReceived =>
    if data.isSome && data2.isSome then
      (readBool data).bind (fun found =>
        if found then (readStation data2).map (fun station => onStationFound U s station)
        else .ok (onStationNotFound s))
    else .ok s
  | .Other => .ok s

/-! ## The frame loop (`App::render_frame`) -/

/-- The block that force-adds the user's own frequency (lines 462-491). -/
def bootstrap {σ : Type} (U : Util) (E : Engine σ) (s : App σ) : App σ :=
  if E.IsAPIConnected s.mClient_ && s.FetchedStations.isEmpty && !s.bootUpVccs then
    let s := { s with bootUpVccs := true }
    let clean_callsign := U.ReplaceString s.session_callsign "__" "_"
    let el := StationElement.build U clean_callsign s.session_frequency
    let s := if !frequencyExists s.FetchedStations el.freq then
        { s with FetchedStations := s.FetchedStations ++ [el] }
      else s
    let s := s.call E (.AddFrequency s.session_frequency clean_callsign)
    let s := s.call E (.SetEnableInputFilters s.mInputFilter)
    let s := s.call E (.SetEnableOutputEffects s.mOutputEffects)
    let s := s.call E (.UseTransceiversFromStation clean_callsign s.session_frequency)
    let s := s.call E (.SetRx s.session_frequency true)
    let s := if s.session_facility > 0 then
        (s.call E (.SetTx s.session_frequency true)).call E (.SetXc s.session_frequency true)
      else s
    let s := s.call E (.FetchStationVccs clean_callsign)
    s.call E (.SetRadiosGain s.RadioGain)
  else s

/-- The predicate of the `std::remove_if` over `shared::StationsPendingRemoval`
(lines 499-518), applied to every queued frequency in order; returns the frequencies that
are kept and the state after the side effects of the predicate. -/
def pendingRemovalLoop {σ : Type} (E : Engine σ) : List Int → App σ → List Int × App σ
  | [], s => ([], s)
  | station :: rest, s =>
    if !E.GetRxActive s.mClient_ station && !E.GetTxActive s.mClient_ station then
      let s := { s with
        FetchedStations := s.FetchedStations.filter (fun p => !(station == p.freq)) }
      pendingRemovalLoop E rest (s.call E (.RemoveFrequency station))
    else
      let r := pendingRemovalLoop E rest s
      (station :: r.1, r.2)

/-- Removal processing (lines 496-519). -/
def processPendingRemoval {σ : Type} (E : Engine σ) (s : App σ) : App σ :=
  let r := pendingRemovalLoop E s.StationsPendingRemoval s
  { r.2 with StationsPendingRemoval := r.1 }

/-- The predicate of the `std::remove_if` over `shared::StationsPendingRxChange`
(lines 525-533), applied to every queued frequency in order. -/
def pendingRxChangeLoop {σ : Type} (E : Engine σ) : List Int → App σ → List Int × App σ
  | [], s => ([], s)
  | station :: rest, s =>
    if !E.GetRxActive s.mClient_ station then
      pendingRxChangeLoop E rest
        (s.call E (.SetRx station (!E.GetRxState s.mClient_ station)))
    else
      let r := pendingRxChangeLoop E rest s
      (station :: r.1, r.2)

/-- Rx-toggle processing (lines 522-534). -/
def processPendingRxChange {σ : Type} (E : Engine σ) (s : App σ) : App σ :=
  let r := pendingRxChangeLoop E s.StationsPendingRxChange s
  { r.2 with StationsPendingRxChange := r.1 }

/-- The `Delete` entry of the frequency popup of station `el` (lines 824-827). -/
def deleteSelected {σ : Type} (s : App σ) (el : StationElement) : App σ :=
  { s with StationsPendingRemoval := s.StationsPendingRemoval ++ [el.freq] }

/-- The `RX` button of station `el` (lines 860-885), with the values polled for `el` at the
top of the loop body (lines 785-787). -/
def rxButton {σ : Type} (E : Engine σ) (s : App σ) (el : StationElement) : App σ :=
  let freq_active := E.IsFrequencyActive s.mClient_ el.freq
  let rx_state := E.GetRxState s.mClient_ el.freq
  let rx_active := E.GetRxActive s.mClient_ el.freq
  if freq_active then
    if rx_active then
      if el.freq ∈ s.StationsPendingRxChange then s
      else { s with StationsPendingRxChange := s.StationsPendingRxChange ++ [el.freq] }
    else s.call E (.SetRx el.freq (!rx_state))
  else
    let s := s.call E (.AddFrequency el.freq el.callsign)
    let s := s.call E (.SetEnableInputFilters s.mInputFilter)
    let s := s.call E (.SetEnableOutputEffects s.mOutputEffects)
    let s := s.call E (.UseTransceiversFromStation el.callsign el.freq)
    let s := s.call E (.SetRx el.freq true)
    s.call E (.SetRadiosGain s.RadioGain)

/-- The call `str.substr(pos)` of `std::string`, on a string of one-byte characters. -/
def substr (str : String) (pos : Nat) : String :=
  String.mk (str.data.drop pos)

/-- The `Add station` input (lines 996-1041), entered with the text already in
`shared::station_auto_add_callsign`; `pilotFound` is the result of the data handler's
`getPilotPositionWithAnything`. -/
def manualAdd {σ : Type} (U : Util) (E : Engine σ) (s : App σ) (pilotFound : Bool) : App σ :=
  if E.IsVoiceConnected s.mClient_ then
    let s :=
      if !U.startsWith s.station_auto_add_callsign "!" then
        (s.call E (.GetStation s.station_auto_add_callsign)).call E
          (.FetchStationVccs s.station_auto_add_callsign)
      else
        let s := { s with station_auto_add_callsign := substr s.station_auto_add_callsign 1 }
        if !frequencyExists s.FetchedStations U.kUnicomFrequency then
          if pilotFound then
            let el := StationElement.build U s.station_auto_add_callsign U.kUnicomFrequency
            let s := { s with FetchedStations := s.FetchedStations ++ [el] }
            let s := s.call E .SetClientPosition
            let s := s.call E (.AddFrequency U.kUnicomFrequency s.station_auto_add_callsign)
            let s := s.call E (.SetRx U.kUnicomFrequency true)
            s.call E (.SetRadiosGain s.RadioGain)
          else s.errorModal "Could not find pilot connected under that callsign."
        else s.errorModal "Another UNICOM frequency is active, please delete it first."
    { s with station_auto_add_callsign := "" }
  else s

/-! ## Transmit snapshot -/

/-- The expression `v.empty() ? "" : std::accumulate(++v.begin(), v.end(), *v.begin(),
[](auto& a, auto& b) { return a + sep + b; })` (lines 1065-1069, 1107-1112). -/
def accumulate (sep : String) : List String → String
  | [] => ""
  | first :: rest => rest.foldl (fun a b => a ++ sep ++ b) first

/-- One iteration of the station loop as far as the received callsigns are concerned
(lines 836-857): the pair is `(received_callsigns, live_received_callsigns)`. -/
def receivedStep {σ : Type} (E : Engine σ) (e : σ) (acc : List String × List String)
    (el : StationElement) : List String × List String :=
  let rx_state := E.GetRxState e el.freq
  let rx_active := E.GetRxActive e el.freq
  if rx_state then
    let received_cld := E.LastTransmitOnFreq e el.freq
    let received :=
      if !received_cld.isEmpty && decide (received_cld ∉ acc.1) then acc.1 ++ [received_cld]
      else acc.1
    let live :=
      if rx_active && !received_cld.isEmpty && decide (received_cld ∉ acc.2) then
        acc.2 ++ [received_cld]
      else acc.2
    (received, live)
  else acc

/-- The two callsign lists a frame builds, both empty at line 537, when no button is
pressed during the frame (the engine state is the same for every station). -/
def receivedCallsigns {σ : Type} (E : Engine σ) (e : σ) (FetchedStations : List StationElement) :
    List String × List String :=
  FetchedStations.foldl (receivedStep E e) ([], [])

/-- Whole milliseconds between two readings of `high_resolution_clock`, readings being
counted in nanoseconds: `duration_cast<milliseconds>(current_time - timer).count()`, which
truncates toward zero. -/
def elapsedMilliseconds (current_time timer : Int) : Int :=
  (current_time - timer).tdiv 1000000

/-- The snapshot refresh at the end of the frame (lines 1096-1114). -/
def refreshTransmitting {σ : Type} (s : App σ) (live_received_callsigns : List String)
    (current_time : Int) : App σ :=
  if elapsedMilliseconds current_time s.currentlyTransmittingApiTimer ≥ 300 then
    { s with
      currentlyTransmittingApiData := "" ++ accumulate "," live_received_callsigns
      currentlyTransmittingApiTimer := current_time }
  else s

/-- The snapshot part of a frame in which no button is pressed: the live list is computed
from the registry and the engine, then the snapshot is refreshed. -/
def frameSnapshot {σ : Type} (E : Engine σ) (s : App σ) (current_time : Int) : App σ :=
  refreshTransmitting s (receivedCallsigns E s.mClient_ s.FetchedStations).2 current_time

/-- The timestamps recorded by the rebuilds of a run of frames, given the clock reading and
the live list of each frame. -/
def rebuildTimes {σ : Type} : App σ → List (Int × List String) → List Int
  | _, [] => []
  | s, (current_time, live) :: rest =>
    if elapsedMilliseconds current_time s.currentlyTransmittingApiTimer ≥ 300 then
      current_time :: rebuildTimes (refreshTransmitting s live current_time) rest
    else rebuildTimes (refreshTransmitting s live current_time) rest

/-! ## Operations on the registry -/

/-- The operations that touch the registry, together with the steps of the environment
(the engine changing state on its own, the data handler updating the session, the user
typing a callsign). -/
inductive Op (σ : Type) where
  | StationsDiscovered (stations : List (String × Int))
  | TransceiverCountUpdated (callsign : String)
  | StationLookupResult (found : Bool) (station : String × Int)
  | Bootstrap
  | ManualAdd (text : String) (pilotFound : Bool)
  | RemovalProcessing
  | EngineChanged (e : σ)
  | SessionChanged (callsign : String) (frequency : Int) (facility : Int)

/-- Effect of one operation. -/
def applyOp {σ : Type} (U : Util) (E : Engine σ) (s : App σ) : Op σ → App σ
  | .StationsDiscovered stations => onVccsReceived U E s stations
  | .TransceiverCountUpdated callsign => onStationTransceiversUpdated E s callsign
  | .StationLookupResult found station =>
    if found then onStationFound U s station else onStationNotFound s
  | .Bootstrap => bootstrap U E s
  | .ManualAdd text pilotFound =>
    manualAdd U E { s with station_auto_add_callsign := text } pilotFound
  | .RemovalProcessing => processPendingRemoval E s
  | .EngineChanged e => { s with mClient_ := e }
  | .SessionChanged callsign frequency facility =>
    { s with session_callsign := callsign, session_frequency := frequency,
             session_facility := facility }

/-- Effect of a sequence of operations. -/
def runOps {σ : Type} (U : Util) (E : Engine σ) (s : App σ) (ops : List (Op σ)) : App σ :=
  ops.foldl (applyOp U E) s

/-- No two entries of the registry have the same frequency. -/
def UniqueFrequencies (FetchedStations : List StationElement) : Prop :=
  FetchedStations.Pairwise (fun a b => a.freq ≠ b.freq)

/-- The frequency normalisation of the `VccsReceived` branch (lines 281-283). -/
def normalizeDiscovered (U : Util) (frequency : Int) : Int :=
  if !U.isValid8_33kHzChannel frequency then U.round8_33kHzChannel frequency else frequency

/-- What the spec asks of the channel helpers: rounding and clean-up always yield a valid
8.33 kHz channel. -/
def Util.Normalizing (U : Util) : Prop :=
  (∀ f, U.isValid8_33kHzChannel (U.round8_33kHzChannel f) = true) ∧
  (∀ f, U.isValid8_33kHzChannel (U.cleanUpFrequency f) = true)

/-! ## Reference instances -/

/-- Modelled from the spec: a valid 8.33 kHz channel, taken as a frequency whose offset in
its 25 kHz block is 0, 5, 10 or 15 kHz (the channel names of the 8.33 kHz grid). -/
def gridValid (f : Int) : Bool :=
  f % 25000 == 0 || f % 25000 == 5000 || f % 25000 == 10000 || f % 25000 == 15000

/-- Modelled from the spec: rounding to the nearest valid channel of `gridValid`. -/
def gridRound (f : Int) : Int :=
  let r := f % 25000
  if r < 2500 then f - r
  else if r < 7500 then f - r + 5000
  else if r < 12500 then f - r + 10000
  else if r < 20000 then f - r + 15000
  else f - r + 25000

/-- Replacement of every occurrence of `search` in a list of characters, left to right;
`fuel` bounds the number of steps. -/
def replaceChars (search replace : List Char) : Nat → List Char → List Char
  | 0, cs => cs
  | _ + 1, [] => []
  | fuel + 1, c :: cs =>
    if search.isPrefixOf (c :: cs) && !search.isEmpty then
      replace ++ replaceChars search replace fuel ((c :: cs).drop search.length)
    else c :: replaceChars search replace fuel cs

/-- Modelled from the spec: an instance of the helpers of `util.h` and `shared.h`, with the
channel grid of `gridValid`, frequencies displayed in MHz with three decimals, and UNICOM
on 122.800 MHz. -/
def gridUtil : Util where
  isValid8_33kHzChannel := gridValid
  round8_33kHzChannel := gridRound
  cleanUpFrequency := gridRound
  ReplaceString := fun subject search replace =>
    String.mk (replaceChars search.data replace.data subject.length subject.data)
  startsWith := fun str start => start.data.isPrefixOf str.data
  humanFrequency := fun f =>
    let khz := (f / 1000 % 1000).toNat
    toString (f / 1000000) ++ "." ++ (if khz < 10 then "00" else if khz < 100 then "0" else "")
      ++ toString khz
  kUnicomFrequency := 122800000
  kClientName := "VectorAudio"

/-- A small concrete engine state: connection flags and, per flag, the frequencies for
which it is set. -/
structure Radio where
  voice : Bool
  api : Bool
  active : List Int
  rxOn : List Int
  rxBusy : List Int
  txOn : List Int
  txBusy : List Int
  lastHeard : List (Int × String)
deriving DecidableEq, Repr

/-- A small concrete engine over `Radio`, used to run the model on explicit inputs. -/
def radioEngine : Engine Radio where
  IsVoiceConnected := fun r => r.voice
  IsAPIConnected := fun r => r.api
  IsAtisPlayingBack := fun _ => false
  IsFrequencyActive := fun r f => decide (f ∈ r.active)
  GetRxState := fun r f => decide (f ∈ r.rxOn)
  GetRxActive := fun r f => decide (f ∈ r.rxBusy)
  GetTxState := fun r f => decide (f ∈ r.txOn)
  GetTxActive := fun r f => decide (f ∈ r.txBusy)
  LastTransmitOnFreq := fun r f => ((r.lastHeard.find? (fun p => p.1 == f)).map (·.2)).getD ""
  GetTransceiverCountForStation := fun _ _ => 1
  exec := fun r c =>
    match c with
    | .AddFrequency f _ => { r with active := f :: r.active }
    | .RemoveFrequency f =>
      { r with active := r.active.filter (· != f), rxOn := r.rxOn.filter (· != f),
               txOn := r.txOn.filter (· != f) }
    | .SetRx f b => { r with rxOn := if b then f :: r.rxOn else r.rxOn.filter (· != f) }
    | .SetTx f b => { r with txOn := if b then f :: r.txOn else r.txOn.filter (· != f) }
    | .Disconnect => { r with voice := false, api := false }
    | _ => r

/-- An engine state of `radioEngine`: connected, nothing tuned. -/
def Radio.idle : Radio :=
  { voice := true, api := true, active := [], rxOn := [], rxBusy := [], txOn := [],
    txBusy := [], lastHeard := [] }

/-- The application state at start-up with engine state `e`: everything empty, the timer at
clock reading `0`. -/
def App.init {σ : Type} (e : σ) : App σ :=
  { mClient_ := e, issued := [], FetchedStations := [], StationsPendingRemoval := [],
    StationsPendingRxChange := [], bootUpVccs := false, isPttOpen := false,
    showErrorModal_ := false, lastErrorModalMessage_ := "", manuallyDisconnected_ := false,
    disconnectWarningSoundAvailable_ := true, soundPlayed := 0,
    currentlyTransmittingApiData := "", currentlyTransmittingApiTimer := 0,
    session_callsign := "", session_frequency := 0, session_facility := 0,
    session_is_connected := false, station_auto_add_callsign := "", mInputFilter := true,
    mOutputEffects := true, RadioGain := 100, ptt := -1, joyStickId := -1,
    joyStickPtt := -1 }

/-! ## Traces of engine commands -/

/-- A list of commands, issued from engine state `e` on, consists of `RemoveFrequency`
calls only, each for a frequency that the engine reports as neither receiving nor
transmitting at the moment the call is made. -/
def removalTrace {σ : Type} (E : Engine σ) : σ → List Cmd → Bool
  | _, [] => true
  | e, .RemoveFrequency f :: cs =>
    !E.GetRxActive e f && !E.GetTxActive e f &&
      removalTrace E (E.exec e (.RemoveFrequency f)) cs
  | _, _ :: _ => false

/-- A list of commands, issued from engine state `e` on, consists of `SetRx` calls only,
each for a frequency that the engine reports as not receiving at the moment the call is
made, and with the negation of the rx-enabled flag the engine reports at that moment. -/
def rxToggleTrace {σ : Type} (E : Engine σ) : σ → List Cmd → Bool
  | _, [] => true
  | e, .SetRx f b :: cs =>
    !E.GetRxActive e f && (b == !E.GetRxState e f) &&
      rxToggleTrace E (E.exec e (.SetRx f b)) cs
  | _, _ :: _ => false

/-- Scenario C: two stations on the board, both queued for removal, while the engine
reports a transmission on 118.725. -/
def removalExample : App Radio :=
  { App.init { Radio.idle with active := [118725000, 119725000], rxOn := [118725000],
                               txOn := [118725000], txBusy := [118725000] } with
    FetchedStations := [StationElement.build gridUtil "EGLL_TWR" 118725000,
                        StationElement.build gridUtil "EGLL_APP" 119725000]
    StationsPendingRemoval := [118725000, 119725000] }

/-- A state with two frequencies queued for an rx toggle, while the engine reports that
118.725 is receiving. -/
def rxToggleExample : App Radio :=
  { App.init { Radio.idle with active := [118725000, 119725000],
                               rxOn := [118725000, 119725000], rxBusy := [118725000] } with
    FetchedStations := [StationElement.build gridUtil "EGLL_TWR" 118725000,
                        StationElement.build gridUtil "EGLL_APP" 119725000]
    StationsPendingRxChange := [118725000, 119725000] }

/-- A state with one station on the board and empty queues, while the engine reports a
transmission on its frequency. -/
def busyStationExample : App Radio :=
  { App.init { Radio.idle with active := [118725000], rxOn := [118725000],
                               txOn := [118725000], txBusy := [118725000] } with
    FetchedStations := [StationElement.build gridUtil "EGLL_TWR" 118725000] }

/-! ## The StationsDiscovered handling in the words of the spec -/

/-- Normalisation as the spec words it: a frequency that is not a valid 8.33 kHz channel
is replaced by the rounded channel, a valid one is kept. -/
def specNormalize (U : Util) (frequency : Int) : Int :=
  if U.isValid8_33kHzChannel frequency = true then frequency
  else U.round8_33kHzChannel frequency

/-- The registry `upsert` as the spec words it: a no-op when an entry with that frequency
is present, an append otherwise. -/
def specUpsert (registry : List StationElement) (element : StationElement) :
    List StationElement :=
  if ∃ e ∈ registry, e.freq = element.freq then registry else registry ++ [element]

/-- The StationsDiscovered action as the spec words it: only while the voice session is
connected, and then for each entry of the mapping in turn, normalise the frequency and
insert if not already in the registry. -/
def specStationsDiscovered (U : Util) (connected : Bool) (stations : List (String × Int))
    (registry : List StationElement) : List StationElement :=
  if connected then
    stations.foldl
      (fun r p => specUpsert r (StationElement.build U p.1 (specNormalize U p.2))) registry
  else registry

/-! ## Validity of the stored frequencies -/

/-- Every frequency stored in the registry is a valid 8.33 kHz channel. -/
def AllValid (U : Util) (FetchedStations : List StationElement) : Prop :=
  ∀ e ∈ FetchedStations, U.isValid8_33kHzChannel e.freq = true

/-- An operation hands the session a frequency that is a valid channel (operations other
than a session update hand it none). -/
def Op.sessionValid {σ : Type} (U : Util) : Op σ → Bool
  | .SessionChanged _ frequency _ => U.isValid8_33kHzChannel frequency
  | _ => true

/-- A state with two stations on the board, rx enabled on both, while the engine reports
BAW123 being received on 118.725 and EZY45 on 119.725. -/
def receivingExample : App Radio :=
  { App.init { Radio.idle with active := [118725000, 119725000],
                               rxOn := [118725000, 119725000],
                               rxBusy := [118725000, 119725000],
                               lastHeard := [(118725000, "BAW123"), (119725000, "EZY45")] } with
    FetchedStations := [StationElement.build gridUtil "EGLL_TWR" 118725000,
                        StationElement.build gridUtil "EGLL_APP" 119725000] }

/-! ## Status API (`App::buildSDKServer`) -/

/-- The method of an HTTP request; `OTHER` stands for every method that is not listed. -/
inductive HttpMethod where
  | GET
  | HEAD
  | POST
  | PUT
  | DELETE
  | OTHER
deriving DecidableEq, Repr

/-- What the request handler reads of a request: `req->header().method()` and
`req->header().request_target()`. -/
structure Request where
  method : HttpMethod
  request_target : String
deriving DecidableEq, Repr

/-- The stations selected by the `std::copy_if` of the `/rx` handler (lines 207-214). -/
def rxStations {σ : Type} (E : Engine σ) (s : App σ) : List StationElement :=
  s.FetchedStations.filter
    (fun st => if !E.IsVoiceConnected s.mClient_ then false else E.GetRxState s.mClient_ st.freq)

/-- The stations selected by the `std::copy_if` of the `/tx` handler (lines 234-241). -/
def txStations {σ : Type} (E : Engine σ) (s : App σ) : List StationElement :=
  s.FetchedStations.filter
    (fun st => if !E.IsVoiceConnected s.mClient_ then false else E.GetTxState s.mClient_ st.freq)

/-- The string `out` after the loop of lines 216-221 (and 243-248): empty at first, then
extended by `callsign + ":" + human_freq + ","` for every selected station. -/
def stationsOut (bar : List StationElement) : String :=
  if !bar.isEmpty then
    bar.foldl (fun out f => out ++ (f.callsign ++ ":" ++ f.human_freq ++ ",")) ""
  else ""

/-- Lines 223-227 (and 250-254): `if (out.back() == ',') out.pop_back();` and the body that
is sent.  `back()` of an empty string is undefined. -/
def trimTrailingComma (out : String) : Except Fault String :=
  match out.data.getLast? with
  | none => .error .emptyBack
  | some c => if c = ',' then .ok (String.mk out.data.dropLast) else .ok out

/-- The request handler installed by `App::buildSDKServer` (lines 191-260): the state after
the request and the body of the response, or the fault that computing the body runs
into. -/
def requestHandler {σ : Type} (U : Util) (E : Engine σ) (s : App σ) (req : Request) :
    App σ × Except Fault String :=
  if req.method = .GET ∧ req.request_target = "/transmitting" then
    (s, .ok s.currentlyTransmittingApiData)
  else if req.method = .GET ∧ req.request_target = "/rx" then
    (s, trimTrailingComma (stationsOut (rxStations E s)))
  else if req.method = .GET ∧ req.request_target = "/tx" then
    (s, trimTrailingComma (stationsOut (txStations E s)))
  else (s, .ok U.kClientName)

/-! ## Push to talk -/

/-- The physical inputs polled by the frame: `sf::Keyboard::isKeyPressed (scancode)` and
`sf::Joystick::isButtonPressed (joystick, button)`. -/
structure Hardware where
  isKeyPressed : Int → Bool
  isButtonPressed : Int → Int → Bool

/-- The scancode `sf::Keyboard::Scan::Unknown`. -/
def ScanUnknown : Int := -1

/-- The push-to-talk block of the frame (lines 429-460). -/
def pttBlock {σ : Type} (E : Engine σ) (hw : Hardware) (s : App σ) : App σ :=
  if E.IsVoiceConnected s.mClient_ && (s.ptt != ScanUnknown || s.joyStickId != -1) then
    if s.isPttOpen then
      let s :=
        if s.joyStickId != -1 then
          if !hw.isButtonPressed s.joyStickId s.joyStickPtt then { s with isPttOpen := false }
          else s
        else
          if !hw.isKeyPressed s.ptt then { s with isPttOpen := false } else s
      s.call E (.SetPtt s.isPttOpen)
    else
      let s :=
        if s.joyStickId != -1 then
          if hw.isButtonPressed s.joyStickId s.joyStickPtt then { s with isPttOpen := true }
          else s
        else
          if hw.isKeyPressed s.ptt then { s with isPttOpen := true } else s
      s.call E (.SetPtt s.isPttOpen)
  else s

/-- The `SetPtt` commands in a list of engine commands. -/
def pttCommands (cmds : List Cmd) : List Cmd :=
  cmds.filter (fun c => match c with | .SetPtt _ => true | _ => false)

/-! ## Disconnect -/

/-- The `else` branch of the connect button logic (lines 656-686): it runs when the engine
is connected to the voice server or to the API; `pressed_disconnect` is the result of the
`Disconnect` button. -/
def disconnectBlock {σ : Type} (E : Engine σ) (s : App σ) (pressed_disconnect : Bool) :
    App σ :=
  if !E.IsVoiceConnected s.mClient_ && !E.IsAPIConnected s.mClient_ then s
  else if pressed_disconnect || !s.session_is_connected then
    let s := if pressed_disconnect then { s with manuallyDisconnected_ := true } else s
    let s := if E.IsAtisPlayingBack s.mClient_ then s.call E .StopAtisPlayback else s
    let s := s.FetchedStations.foldl (fun a f => a.call E (.RemoveFrequency f.freq)) s
    let s := s.call E .Disconnect
    let s := { s with FetchedStations := [] }
    { s with bootUpVccs := false }
  else s

/-! ## Messages of the `APIServerError` branch -/

/-- The arguments of the calls to `errorModal` made by the six tests of the
`APIServerError` branch (lines 313-363), in the order of the calls. -/
def apiServerErrorMessages (err : APISessionError) : List String :=
  (if err = .BadPassword ∨ err = .RejectedCredentials then
      ["Could not login to VATSIM.\nInvalid Credentials.\nCheck your password/cid!"]
    else []) ++
  (if err = .ConnectionError then
      ["Could not login to VATSIM.\nConnection Error.\nCheck your internet connection."]
    else []) ++
  (if err = .BadRequestOrClientIncompatible then
      ["Could not login to VATSIM.\n Bad Request or Client Incompatible."]
    else []) ++
  (if err = .InvalidAuthToken then ["Could not login to VATSIM.\n Invalid Auth Token."]
    else []) ++
  (if err = .AuthTokenExpiryTimeInPast then
      ["Could not login to VATSIM.\n Auth Token has expired.\n Check your system clock."]
    else []) ++
  (if err = .OtherRequestError then ["Could not login to VATSIM.\n Unknown Error."] else [])

/-! ## Reference inputs for push to talk, disconnect and session errors -/

/-- A keyboard on which every key is held down; no joystick button is. -/
def keysHeld : Hardware :=
  { isKeyPressed := fun _ => true, isButtonPressed := fun _ _ => false }

/-- A keyboard and joystick with nothing pressed. -/
def nothingPressed : Hardware :=
  { isKeyPressed := fun _ => false, isButtonPressed := fun _ _ => false }

/-- A connected state with a keyboard key configured for push to talk (scancode 40), no
joystick, and the given keyed state. -/
def pttExample (keyed : Bool) : App Radio :=
  { App.init Radio.idle with ptt := 40, isPttOpen := keyed }

/-- A state in which the warning sound could not be loaded and the user has pressed
`Disconnect`. -/
def silentDisconnectExample : App Radio :=
  { App.init Radio.idle with
    disconnectWarningSoundAvailable_ := false, manuallyDisconnected_ := true }

/-- The reading of the selected push-to-talk input in a frame: the joystick button when a
joystick is configured, the keyboard key otherwise (lines 434-443 and 447-456). -/
def pttPressed {σ : Type} (hw : Hardware) (s : App σ) : Bool :=
  if s.joyStickId != -1 then hw.isButtonPressed s.joyStickId s.joyStickPtt
  else hw.isKeyPressed s.ptt

/-- A joystick whose every button is held down; no keyboard key is. -/
def buttonsHeld : Hardware :=
  { isKeyPressed := fun _ => false, isButtonPressed := fun _ _ => true }

/-! ## Station registry: lookup and guarded insert -/

theorem frequencyExists_eq_true (FetchedStations : List StationElement) (freq : Int) :
    frequencyExists FetchedStations freq = true ↔ ∃ e ∈ FetchedStations, e.freq = freq := by
  simp [frequencyExists]

theorem frequencyExists_eq_false (FetchedStations : List StationElement) (freq : Int) :
    frequencyExists FetchedStations freq = false ↔ ∀ e ∈ FetchedStations, e.freq ≠ freq := by
  rw [← Bool.not_eq_true, frequencyExists_eq_true]
  simp

theorem insertIfAbsent_of_exists {FetchedStations : List StationElement} {el : StationElement}
    (h : ∃ e ∈ FetchedStations, e.freq = el.freq) :
    insertIfAbsent FetchedStations el = FetchedStations := by
  have hx := (frequencyExists_eq_true FetchedStations el.freq).2 h
  simp [insertIfAbsent, hx]

theorem insertIfAbsent_of_not_exists {FetchedStations : List StationElement}
    {el : StationElement} (h : ¬ ∃ e ∈ FetchedStations, e.freq = el.freq) :
    insertIfAbsent FetchedStations el = FetchedStations ++ [el] := by
  have hx : frequencyExists FetchedStations el.freq = false := by
    rw [← Bool.not_eq_true, frequencyExists_eq_true]
    exact h
  simp [insertIfAbsent, hx]

@[simp]
theorem build_freq (U : Util) (callsign : String) (freq : Int) :
    (StationElement.build U callsign freq).freq = freq := rfl

theorem onStationFound_stations {σ : Type} (U : Util) (a : App σ) (station : String × Int) :
    (onStationFound U a station).FetchedStations =
      insertIfAbsent a.FetchedStations
        (StationElement.build U station.1 (U.cleanUpFrequency station.2)) := by
  simp only [onStationFound, insertIfAbsent, build_freq]
  exact apply_ite App.FetchedStations _ _ _

theorem vccsLoop_cons (U : Util) (s : String × Int) (rest : List (String × Int))
    (FetchedStations : List StationElement) :
    vccsLoop U (s :: rest) FetchedStations =
      vccsLoop U rest (insertIfAbsent FetchedStations
        (StationElement.build U s.1 (normalizeDiscovered U s.2))) := rfl

/-- C6: `frequencyExists f` is true exactly when some entry of the registry has
frequency `f`. -/
theorem C6_frequencyExists_iff (FetchedStations : List StationElement) (freq : Int) :
    frequencyExists FetchedStations freq = true ↔ ∃ e ∈ FetchedStations, e.freq = freq :=
  frequencyExists_eq_true FetchedStations freq

/-- C5: the guarded insert leaves the registry exactly as it was when an entry with the
frequency of `el` is present, and appends `el` as last entry otherwise; it is the insert
of the `StationsDiscovered` and `StationLookupResult` branches; inserting EGLL_TWR on
118725000 into the empty registry gives one entry and `frequencyExists 118725000`. -/
theorem C5_insert_if_absent (U : Util) (FetchedStations : List StationElement)
    (el : StationElement) :
    ((∃ e ∈ FetchedStations, e.freq = el.freq) →
        insertIfAbsent FetchedStations el = FetchedStations) ∧
    ((¬ ∃ e ∈ FetchedStations, e.freq = el.freq) →
        insertIfAbsent FetchedStations el = FetchedStations ++ [el]) ∧
    (∀ (s : String × Int) (rest : List (String × Int)),
        vccsLoop U (s :: rest) FetchedStations =
          vccsLoop U rest (insertIfAbsent FetchedStations
            (StationElement.build U s.1 (normalizeDiscovered U s.2)))) ∧
    (∀ (σ : Type) (a : App σ) (station : String × Int),
        (onStationFound U a station).FetchedStations =
          insertIfAbsent a.FetchedStations
            (StationElement.build U station.1 (U.cleanUpFrequency station.2))) ∧
    (insertIfAbsent [] (StationElement.build U "EGLL_TWR" 118725000)).length = 1 ∧
    frequencyExists (insertIfAbsent [] (StationElement.build U "EGLL_TWR" 118725000))
      118725000 = true := by
  refine ⟨insertIfAbsent_of_exists, insertIfAbsent_of_not_exists, ?_, ?_, ?_, ?_⟩
  · intro s rest
    exact vccsLoop_cons U s rest FetchedStations
  · intro σ a station
    exact onStationFound_stations U a station
  · simp [insertIfAbsent, frequencyExists]
  · simp [insertIfAbsent, frequencyExists, StationElement.build]

/-- C5 at a concrete registry: an entry on 118725000 is present, a second element on the
same frequency is not inserted and the first entry keeps its callsign; an element on
119725000 is appended. -/
theorem C5_insert_if_absent_witness :
    insertIfAbsent [StationElement.build gridUtil "EGLL_TWR" 118725000]
        (StationElement.build gridUtil "EGLL_GND" 118725000) =
      [StationElement.build gridUtil "EGLL_TWR" 118725000] ∧
    insertIfAbsent [StationElement.build gridUtil "EGLL_TWR" 118725000]
        (StationElement.build gridUtil "EGLL_APP" 119725000) =
      [StationElement.build gridUtil "EGLL_TWR" 118725000,
       StationElement.build gridUtil "EGLL_APP" 119725000] :=
  ⟨(C5_insert_if_absent gridUtil [StationElement.build gridUtil "EGLL_TWR" 118725000]
      (StationElement.build gridUtil "EGLL_GND" 118725000)).1
      ⟨_, List.mem_singleton.2 rfl, rfl⟩,
   (C5_insert_if_absent gridUtil [StationElement.build gridUtil "EGLL_TWR" 118725000]
      (StationElement.build gridUtil "EGLL_APP" 119725000)).2.1
      (by simp [StationElement.build])⟩

/-! ## Uniqueness of frequencies in the registry -/

theorem unique_insertIfAbsent {FetchedStations : List StationElement} (el : StationElement)
    (h : UniqueFrequencies FetchedStations) :
    UniqueFrequencies (insertIfAbsent FetchedStations el) := by
  by_cases hx : ∃ e ∈ FetchedStations, e.freq = el.freq
  · rw [insertIfAbsent_of_exists hx]
    exact h
  · rw [insertIfAbsent_of_not_exists hx]
    refine List.pairwise_append.2 ⟨h, List.pairwise_singleton _ _, ?_⟩
    intro a ha b hb
    rw [List.mem_singleton] at hb
    subst hb
    exact fun hab => hx ⟨a, ha, hab⟩

theorem unique_vccsLoop (U : Util) (stations : List (String × Int)) :
    ∀ FetchedStations : List StationElement, UniqueFrequencies FetchedStations →
      UniqueFrequencies (vccsLoop U stations FetchedStations) := by
  induction stations with
  | nil => intro reg h; exact h
  | cons p rest ih =>
    intro reg h
    rw [vccsLoop_cons]
    exact ih _ (unique_insertIfAbsent _ h)

theorem updateFirst_map_freq (p : StationElement → Bool) (f : StationElement → StationElement)
    (hf : ∀ x, (f x).freq = x.freq) (l : List StationElement) :
    (updateFirst p f l).map (·.freq) = l.map (·.freq) := by
  induction l with
  | nil => rfl
  | cons x xs ih =>
    unfold updateFirst
    split
    · simp [hf]
    · simp [ih]

theorem unique_iff_nodup (l : List StationElement) :
    UniqueFrequencies l ↔ (l.map (·.freq)).Nodup := by
  unfold UniqueFrequencies List.Nodup
  rw [List.pairwise_map]

theorem unique_of_sublist {l l2 : List StationElement} (hs : List.Sublist l2 l)
    (h : UniqueFrequencies l) : UniqueFrequencies l2 :=
  List.Pairwise.sublist hs h

@[simp]
theorem call_FetchedStations {σ : Type} (E : Engine σ) (s : App σ) (c : Cmd) :
    (s.call E c).FetchedStations = s.FetchedStations := rfl

@[simp]
theorem call_StationsPendingRemoval {σ : Type} (E : Engine σ) (s : App σ) (c : Cmd) :
    (s.call E c).StationsPendingRemoval = s.StationsPendingRemoval := rfl

@[simp]
theorem call_StationsPendingRxChange {σ : Type} (E : Engine σ) (s : App σ) (c : Cmd) :
    (s.call E c).StationsPendingRxChange = s.StationsPendingRxChange := rfl

@[simp]
theorem call_issued {σ : Type} (E : Engine σ) (s : App σ) (c : Cmd) :
    (s.call E c).issued = s.issued ++ [c] := rfl

@[simp]
theorem call_mClient {σ : Type} (E : Engine σ) (s : App σ) (c : Cmd) :
    (s.call E c).mClient_ = E.exec s.mClient_ c := rfl

theorem bootstrap_stations {σ : Type} (U : Util) (E : Engine σ) (s : App σ) :
    (bootstrap U E s).FetchedStations =
      if (E.IsAPIConnected s.mClient_ && s.FetchedStations.isEmpty && !s.bootUpVccs) = true then
        insertIfAbsent s.FetchedStations
          (StationElement.build U (U.ReplaceString s.session_callsign "__" "_")
            s.session_frequency)
      else s.FetchedStations := by
  unfold bootstrap
  split
  · simp only [call_FetchedStations, insertIfAbsent, build_freq]
    split <;> split <;> simp_all
  · rfl

theorem manualAdd_stations {σ : Type} (U : Util) (E : Engine σ) (s : App σ)
    (pilotFound : Bool) :
    (manualAdd U E s pilotFound).FetchedStations = s.FetchedStations ∨
    (frequencyExists s.FetchedStations U.kUnicomFrequency = false ∧
      (manualAdd U E s pilotFound).FetchedStations =
        s.FetchedStations ++
          [StationElement.build U (substr s.station_auto_add_callsign 1) U.kUnicomFrequency]) := by
  unfold manualAdd
  split
  · by_cases h1 : (!U.startsWith s.station_auto_add_callsign "!") = true
    · left
      simp [h1]
    · by_cases h2 : frequencyExists s.FetchedStations U.kUnicomFrequency = true
      · left
        simp [h1, h2, App.errorModal]
      · cases pilotFound
        · left
          simp [h1, h2, App.errorModal]
        · right
          simp [h1, h2]
  · left
    rfl

theorem pendingRemovalLoop_sublist {σ : Type} (E : Engine σ) (queue : List Int) :
    ∀ s : App σ,
      List.Sublist (pendingRemovalLoop E queue s).2.FetchedStations s.FetchedStations := by
  induction queue with
  | nil => intro s; exact List.Sublist.refl _
  | cons station rest ih =>
    intro s
    unfold pendingRemovalLoop
    split
    · refine List.Sublist.trans (ih _) ?_
      simp only [call_FetchedStations]
      exact List.filter_sublist _
    · exact ih s

theorem unique_applyOp {σ : Type} (U : Util) (E : Engine σ) (s : App σ) (op : Op σ)
    (h : UniqueFrequencies s.FetchedStations) :
    UniqueFrequencies (applyOp U E s op).FetchedStations := by
  cases op with
  | StationsDiscovered stations =>
    simp only [applyOp, onVccsReceived]
    split
    · exact unique_vccsLoop U stations _ h
    · exact h
  | TransceiverCountUpdated callsign =>
    simp only [applyOp, onStationTransceiversUpdated]
    have hm := updateFirst_map_freq (fun fs => fs.callsign == callsign)
      (fun fs => { fs with
        transceivers := E.GetTransceiverCountForStation s.mClient_ callsign })
      (fun _ => rfl) s.FetchedStations
    rw [unique_iff_nodup, hm, ← unique_iff_nodup]
    exact h
  | StationLookupResult found station =>
    simp only [applyOp]
    split
    · rw [onStationFound_stations]
      exact unique_insertIfAbsent _ h
    · exact h
  | Bootstrap =>
    simp only [applyOp]
    rw [bootstrap_stations]
    split
    · exact unique_insertIfAbsent _ h
    · exact h
  | ManualAdd text pilotFound =>
    simp only [applyOp]
    rcases manualAdd_stations U E { s with station_auto_add_callsign := text } pilotFound with
      h1 | ⟨h1, h2⟩
    · rw [h1]
      exact h
    · rw [h2]
      have hx := @insertIfAbsent_of_not_exists s.FetchedStations
        (StationElement.build U (substr text 1) U.kUnicomFrequency)
        (by
          rw [← frequencyExists_eq_true, build_freq]
          simpa using h1)
      have hu := unique_insertIfAbsent
        (StationElement.build U (substr text 1) U.kUnicomFrequency) h
      rw [hx] at hu
      exact hu
  | RemovalProcessing =>
    simp only [applyOp, processPendingRemoval]
    exact unique_of_sublist (pendingRemovalLoop_sublist E _ s) h
  | EngineChanged e => exact h
  | SessionChanged callsign frequency facility => exact h

theorem unique_runOps {σ : Type} (U : Util) (E : Engine σ) (ops : List (Op σ)) :
    ∀ s : App σ, UniqueFrequencies s.FetchedStations →
      UniqueFrequencies (runOps U E s ops).FetchedStations := by
  induction ops with
  | nil => intro s h; exact h
  | cons op rest ih =>
    intro s h
    exact ih _ (unique_applyOp U E s op h)

/-- C1: starting from a registry with pairwise distinct frequencies, after any finite
sequence of StationsDiscovered, StationLookupResult, bootstrap and UNICOM manual add
operations, interleaved with removal processing, TransceiverCountUpdated events and
arbitrary changes of the engine and of the session, no two entries of the registry have
the same frequency. -/
theorem C1_registry_unique {σ : Type} (U : Util) (E : Engine σ) (s : App σ)
    (ops : List (Op σ)) (h : UniqueFrequencies s.FetchedStations) :
    UniqueFrequencies (runOps U E s ops).FetchedStations :=
  unique_runOps U E ops s h

/-- C1 on a concrete run from the empty registry: a discovery that names 118.725 twice
(once as the raw 118728000 of another callsign), a lookup result on a frequency already
present, a UNICOM add, and a removal pass. -/
theorem C1_registry_unique_witness :
    UniqueFrequencies (App.init Radio.idle).FetchedStations ∧
    UniqueFrequencies
      (runOps gridUtil radioEngine (App.init Radio.idle)
        [Op.StationsDiscovered [("EGLL_APP", 119725000), ("EGLL_GND", 118728000),
            ("EGLL_TWR", 118730000)],
         Op.StationLookupResult true ("EGLL_N_APP", 119725000),
         Op.ManualAdd "!BAW123" true,
         Op.TransceiverCountUpdated "EGLL_APP",
         Op.RemovalProcessing]).FetchedStations :=
  ⟨List.Pairwise.nil,
   C1_registry_unique gridUtil radioEngine (App.init Radio.idle) _ List.Pairwise.nil⟩

/-! ## Deferred removal -/

theorem pendingRemovalLoop_spec {σ : Type} (E : Engine σ)
    (hst : ∀ e f, E.GetRxActive e f = false → E.GetTxActive e f = false →
      ∀ g, E.GetRxActive (E.exec e (.RemoveFrequency f)) g = E.GetRxActive e g ∧
           E.GetTxActive (E.exec e (.RemoveFrequency f)) g = E.GetTxActive e g)
    (rx tx : Int → Bool) (queue : List Int) :
    ∀ s : App σ,
      (∀ g, E.GetRxActive s.mClient_ g = rx g ∧ E.GetTxActive s.mClient_ g = tx g) →
      (pendingRemovalLoop E queue s).1 = queue.filter (fun f => rx f || tx f) ∧
      (pendingRemovalLoop E queue s).2.FetchedStations =
        s.FetchedStations.filter
          (fun p => !(queue.any (fun f => f == p.freq && !(rx f || tx f)))) ∧
      (pendingRemovalLoop E queue s).2.issued =
        s.issued ++ (queue.filter (fun f => !(rx f || tx f))).map Cmd.RemoveFrequency := by
  induction queue with
  | nil =>
    intro s _
    simp [pendingRemovalLoop]
  | cons station rest ih =>
    intro s hs
    have hrx := (hs station).1
    have htx := (hs station).2
    unfold pendingRemovalLoop
    by_cases hfree : (rx station || tx station) = true
    · have hc : ¬ ((!E.GetRxActive s.mClient_ station && !E.GetTxActive s.mClient_ station)
          = true) := by
        rw [hrx, htx]
        revert hfree
        cases rx station <;> cases tx station <;> simp
      have hfree2 : (!rx station && !tx station) = false := by
        revert hfree
        cases rx station <;> cases tx station <;> simp
      rw [if_neg hc]
      obtain ⟨h1, h2, h3⟩ := ih s hs
      refine ⟨?_, ?_, ?_⟩
      · simp [h1, hfree]
      · rw [h2]
        apply List.filter_congr
        intro p _
        simp [hfree, hfree2]
      · rw [h3]
        simp [hfree, hfree2]
    · have hr : rx station = false := by
        revert hfree
        cases rx station <;> simp
      have ht : tx station = false := by
        revert hfree
        cases tx station <;> simp
      have hc : (!E.GetRxActive s.mClient_ station && !E.GetTxActive s.mClient_ station)
          = true := by
        rw [hrx, htx, hr, ht]
        rfl
      rw [if_pos hc]
      have hs2 : ∀ g,
          E.GetRxActive (({ s with FetchedStations :=
              s.FetchedStations.filter (fun p => !(station == p.freq)) } : App σ).call E
              (.RemoveFrequency station)).mClient_ g = rx g ∧
          E.GetTxActive (({ s with FetchedStations :=
              s.FetchedStations.filter (fun p => !(station == p.freq)) } : App σ).call E
              (.RemoveFrequency station)).mClient_ g = tx g := by
        intro g
        have hg := hst s.mClient_ station (by rw [hrx, hr]) (by rw [htx, ht]) g
        exact ⟨hg.1.trans (hs g).1, hg.2.trans (hs g).2⟩
      obtain ⟨h1, h2, h3⟩ := ih _ hs2
      refine ⟨?_, ?_, ?_⟩
      · simp [h1, hr, ht]
      · rw [h2]
        simp only [call_FetchedStations, List.filter_filter]
        apply List.filter_congr
        intro p _
        simp [hr, ht, Bool.and_comm]
      · rw [h3]
        simp [hr, ht]

theorem pendingRemovalLoop_trace {σ : Type} (E : Engine σ) (queue : List Int) :
    ∀ s : App σ,
      List.Sublist (pendingRemovalLoop E queue s).1 queue ∧
      ∃ removed, List.Sublist removed queue ∧
        (pendingRemovalLoop E queue s).2.issued =
          s.issued ++ removed.map Cmd.RemoveFrequency ∧
        removalTrace E s.mClient_ (removed.map Cmd.RemoveFrequency) = true := by
  induction queue with
  | nil =>
    intro s
    exact ⟨List.Sublist.refl _, [], List.Sublist.refl _, by simp [pendingRemovalLoop],
      rfl⟩
  | cons station rest ih =>
    intro s
    unfold pendingRemovalLoop
    split
    · rename_i hc
      obtain ⟨h1, removed, h2, h3, h4⟩ := ih
        (({ s with FetchedStations :=
            s.FetchedStations.filter (fun p => !(station == p.freq)) } : App σ).call E
            (.RemoveFrequency station))
      refine ⟨List.Sublist.cons _ h1, station :: removed, List.Sublist.cons₂ _ h2, ?_, ?_⟩
      · rw [h3]
        simp
      · simp only [List.map_cons, removalTrace, Bool.and_eq_true]
        exact ⟨by simpa using hc, h4⟩
    · obtain ⟨h1, removed, h2, h3, h4⟩ := ih s
      exact ⟨List.Sublist.cons₂ _ h1, removed, List.Sublist.cons _ h2, h3, h4⟩

theorem processPendingRemoval_spec {σ : Type} (E : Engine σ) (s : App σ)
    (hst : ∀ e f, E.GetRxActive e f = false → E.GetTxActive e f = false →
      ∀ g, E.GetRxActive (E.exec e (.RemoveFrequency f)) g = E.GetRxActive e g ∧
           E.GetTxActive (E.exec e (.RemoveFrequency f)) g = E.GetTxActive e g) :
    (processPendingRemoval E s).StationsPendingRemoval =
      s.StationsPendingRemoval.filter
        (fun f => E.GetRxActive s.mClient_ f || E.GetTxActive s.mClient_ f) ∧
    (processPendingRemoval E s).FetchedStations =
      s.FetchedStations.filter
        (fun p => !(s.StationsPendingRemoval.any (fun f => f == p.freq &&
          !(E.GetRxActive s.mClient_ f || E.GetTxActive s.mClient_ f)))) ∧
    (processPendingRemoval E s).issued =
      s.issued ++ (s.StationsPendingRemoval.filter
        (fun f => !(E.GetRxActive s.mClient_ f || E.GetTxActive s.mClient_ f))).map
          Cmd.RemoveFrequency := by
  have h := pendingRemovalLoop_spec E hst (E.GetRxActive s.mClient_) (E.GetTxActive s.mClient_)
    s.StationsPendingRemoval s (fun _ => ⟨rfl, rfl⟩)
  exact h

/-- C2: one pass of removal processing.  For every engine: the queue and the registry
after the pass are sublists of the ones before (kept items keep their relative order), and
the commands issued are `RemoveFrequency` calls for queued frequencies, each made at a
moment when the engine reports that frequency as neither receiving nor transmitting.  For
an engine whose receiving / transmitting reports are not changed by such a call: a queued
frequency `f` has been dequeued, has no entry left in the registry and has been passed to
`RemoveFrequency` exactly when the engine reported rx-active and tx-active both false; when
either was true, `f` is still queued, the entries on `f` are the ones that were there, and
no `RemoveFrequency f` was issued. -/
theorem C2_removal_completes_iff_idle {σ : Type} (E : Engine σ) (s : App σ) :
    List.Sublist (processPendingRemoval E s).StationsPendingRemoval s.StationsPendingRemoval ∧
    List.Sublist (processPendingRemoval E s).FetchedStations s.FetchedStations ∧
    (∃ removed, List.Sublist removed s.StationsPendingRemoval ∧
      (processPendingRemoval E s).issued = s.issued ++ removed.map Cmd.RemoveFrequency ∧
      removalTrace E s.mClient_ (removed.map Cmd.RemoveFrequency) = true) ∧
    ((∀ e f, E.GetRxActive e f = false → E.GetTxActive e f = false →
        ∀ g, E.GetRxActive (E.exec e (.RemoveFrequency f)) g = E.GetRxActive e g ∧
             E.GetTxActive (E.exec e (.RemoveFrequency f)) g = E.GetTxActive e g) →
      ∀ f ∈ s.StationsPendingRemoval,
      ((f ∉ (processPendingRemoval E s).StationsPendingRemoval ∧
          (∀ e ∈ (processPendingRemoval E s).FetchedStations, e.freq ≠ f) ∧
          Cmd.RemoveFrequency f ∈ (processPendingRemoval E s).issued.drop s.issued.length) ↔
        (E.GetRxActive s.mClient_ f = false ∧ E.GetTxActive s.mClient_ f = false)) ∧
      ((E.GetRxActive s.mClient_ f = true ∨ E.GetTxActive s.mClient_ f = true) →
        f ∈ (processPendingRemoval E s).StationsPendingRemoval ∧
        (processPendingRemoval E s).FetchedStations.filter (fun e => e.freq == f) =
          s.FetchedStations.filter (fun e => e.freq == f) ∧
        Cmd.RemoveFrequency f ∉ (processPendingRemoval E s).issued.drop s.issued.length)) := by
  have ht := pendingRemovalLoop_trace E s.StationsPendingRemoval s
  refine ⟨ht.1, pendingRemovalLoop_sublist E _ s, ht.2, ?_⟩
  intro hst
  obtain ⟨hq, hr, hi⟩ := processPendingRemoval_spec E s hst
  intro f hf
  have hdrop : (processPendingRemoval E s).issued.drop s.issued.length =
      (s.StationsPendingRemoval.filter
        (fun f => !(E.GetRxActive s.mClient_ f || E.GetTxActive s.mClient_ f))).map
          Cmd.RemoveFrequency := by
    rw [hi]
    simp
  rw [hdrop, hq, hr]
  constructor
  · constructor
    · rintro ⟨h1, -, -⟩
      have h1b : ¬ ((E.GetRxActive s.mClient_ f || E.GetTxActive s.mClient_ f) = true) := by
        intro hb
        exact h1 (List.mem_filter.2 ⟨hf, hb⟩)
      revert h1b
      cases E.GetRxActive s.mClient_ f <;> cases E.GetTxActive s.mClient_ f <;> simp
    · rintro ⟨hrx, htx⟩
      refine ⟨?_, ?_, ?_⟩
      · simp [List.mem_filter, hrx, htx]
      · intro e he hef
        rw [List.mem_filter] at he
        have h2 := he.2
        simp only [Bool.not_eq_true_eq_eq_false, List.any_eq_false] at h2
        have h3 := h2 f hf
        simp [hef, hrx, htx] at h3
      · rw [List.mem_map]
        exact ⟨f, List.mem_filter.2 ⟨hf, by simp [hrx, htx]⟩, rfl⟩
  · intro hbusy
    have hb : (E.GetRxActive s.mClient_ f || E.GetTxActive s.mClient_ f) = true := by
      rcases hbusy with h | h <;> simp [h]
    refine ⟨List.mem_filter.2 ⟨hf, hb⟩, ?_, ?_⟩
    · rw [List.filter_filter]
      apply List.filter_congr
      intro e _
      by_cases hef : e.freq = f
      · have hany : (s.StationsPendingRemoval.any (fun g => g == e.freq &&
            !(E.GetRxActive s.mClient_ g || E.GetTxActive s.mClient_ g))) = false := by
          rw [List.any_eq_false]
          intro g _
          by_cases hg : g = f
          · subst hg
            simp [hb]
          · simp [hef, hg]
        rw [hany]
        simp
      · simp [hef]
    · rw [List.mem_map]
      rintro ⟨g, hg, hgf⟩
      injection hgf with hgf
      subst hgf
      rw [List.mem_filter] at hg
      simp [hb] at hg

/-- C2 on scenario C: with a transmission on 118.725 and none on 119.725, the pass removes
119.725 from the queue and from the registry and tells the engine so, while 118.725 stays
queued with its entry. -/
theorem C2_removal_completes_iff_idle_witness :
    (119725000 ∉ (processPendingRemoval radioEngine removalExample).StationsPendingRemoval ∧
      (∀ e ∈ (processPendingRemoval radioEngine removalExample).FetchedStations,
        e.freq ≠ 119725000) ∧
      Cmd.RemoveFrequency 119725000 ∈
        (processPendingRemoval radioEngine removalExample).issued.drop
          removalExample.issued.length) ∧
    (118725000 ∈ (processPendingRemoval radioEngine removalExample).StationsPendingRemoval ∧
      (processPendingRemoval radioEngine removalExample).FetchedStations.filter
          (fun e => e.freq == 118725000) =
        removalExample.FetchedStations.filter (fun e => e.freq == 118725000) ∧
      Cmd.RemoveFrequency 118725000 ∉
        (processPendingRemoval radioEngine removalExample).issued.drop
          removalExample.issued.length) :=
  ⟨(((C2_removal_completes_iff_idle radioEngine removalExample).2.2.2
      (fun _ _ _ _ _ => ⟨rfl, rfl⟩) 119725000 (by decide)).1).2 ⟨by decide, by decide⟩,
   ((C2_removal_completes_iff_idle radioEngine removalExample).2.2.2
      (fun _ _ _ _ _ => ⟨rfl, rfl⟩) 118725000 (by decide)).2 (Or.inr (by decide))⟩

/-! ## Deferred rx toggle -/

theorem pendingRxChangeLoop_trace {σ : Type} (E : Engine σ) (queue : List Int) :
    ∀ s : App σ,
      List.Sublist (pendingRxChangeLoop E queue s).1 queue ∧
      ∃ toggles : List (Int × Bool), List.Sublist (toggles.map Prod.fst) queue ∧
        (pendingRxChangeLoop E queue s).2.issued =
          s.issued ++ toggles.map (fun t => Cmd.SetRx t.1 t.2) ∧
        rxToggleTrace E s.mClient_ (toggles.map (fun t => Cmd.SetRx t.1 t.2)) = true := by
  induction queue with
  | nil =>
    intro s
    exact ⟨List.Sublist.refl _, [], List.Sublist.refl _, by simp [pendingRxChangeLoop],
      rfl⟩
  | cons station rest ih =>
    intro s
    unfold pendingRxChangeLoop
    split
    · rename_i hc
      obtain ⟨h1, toggles, h2, h3, h4⟩ := ih
        (s.call E (.SetRx station (!E.GetRxState s.mClient_ station)))
      refine ⟨List.Sublist.cons _ h1, (station, !E.GetRxState s.mClient_ station) :: toggles,
        List.Sublist.cons₂ _ h2, ?_, ?_⟩
      · rw [h3]
        simp
      · simp only [List.map_cons, rxToggleTrace, Bool.and_eq_true]
        exact ⟨⟨by simpa using hc, by simp⟩, h4⟩
    · obtain ⟨h1, toggles, h2, h3, h4⟩ := ih s
      exact ⟨List.Sublist.cons₂ _ h1, toggles, List.Sublist.cons _ h2, h3, h4⟩

theorem pendingRxChangeLoop_spec {σ : Type} (E : Engine σ)
    (hA : ∀ e f b, E.GetRxActive e f = false →
      ∀ g, E.GetRxActive (E.exec e (.SetRx f b)) g = E.GetRxActive e g)
    (rx : Int → Bool) (queue : List Int) :
    ∀ s : App σ, (∀ g, E.GetRxActive s.mClient_ g = rx g) →
      (pendingRxChangeLoop E queue s).1 = queue.filter rx ∧
      ∃ toggles : List (Int × Bool),
        toggles.map Prod.fst = queue.filter (fun f => !rx f) ∧
        (pendingRxChangeLoop E queue s).2.issued =
          s.issued ++ toggles.map (fun t => Cmd.SetRx t.1 t.2) := by
  induction queue with
  | nil =>
    intro s _
    exact ⟨rfl, [], rfl, by simp [pendingRxChangeLoop]⟩
  | cons station rest ih =>
    intro s hs
    have hrx := hs station
    unfold pendingRxChangeLoop
    by_cases hbusy : rx station = true
    · have hc : ¬ ((!E.GetRxActive s.mClient_ station) = true) := by
        rw [hrx, hbusy]
        simp
      rw [if_neg hc]
      obtain ⟨h1, toggles, h2, h3⟩ := ih s hs
      refine ⟨by simp [h1, hbusy], toggles, ?_, h3⟩
      rw [h2]
      simp [hbusy]
    · have hr : rx station = false := by
        revert hbusy
        cases rx station <;> simp
      have hc : (!E.GetRxActive s.mClient_ station) = true := by
        rw [hrx, hr]
        rfl
      rw [if_pos hc]
      obtain ⟨h1, toggles, h2, h3⟩ := ih
        (s.call E (.SetRx station (!E.GetRxState s.mClient_ station)))
        (fun g => (hA s.mClient_ station _ (by rw [hrx, hr]) g).trans (hs g))
      refine ⟨by simp [h1, hr], (station, !E.GetRxState s.mClient_ station) :: toggles, ?_, ?_⟩
      · simp [h2, hr]
      · rw [h3]
        simp

theorem pendingRxChangeLoop_values {σ : Type} (E : Engine σ)
    (hA : ∀ e f b, E.GetRxActive e f = false →
      ∀ g, E.GetRxActive (E.exec e (.SetRx f b)) g = E.GetRxActive e g)
    (hS : ∀ e f b g, g ≠ f → E.GetRxState (E.exec e (.SetRx f b)) g = E.GetRxState e g)
    (rx st : Int → Bool) (queue : List Int) :
    ∀ s : App σ, (∀ g, E.GetRxActive s.mClient_ g = rx g) →
      (∀ g ∈ queue, E.GetRxState s.mClient_ g = st g) → queue.Nodup →
      (pendingRxChangeLoop E queue s).2.issued =
        s.issued ++ (queue.filter (fun f => !rx f)).map (fun f => Cmd.SetRx f (!st f)) := by
  induction queue with
  | nil =>
    intro s _ _ _
    simp [pendingRxChangeLoop]
  | cons station rest ih =>
    intro s hs hstate hnd
    have hrx := hs station
    have hnd2 := List.nodup_cons.1 hnd
    unfold pendingRxChangeLoop
    by_cases hbusy : rx station = true
    · have hc : ¬ ((!E.GetRxActive s.mClient_ station) = true) := by
        rw [hrx, hbusy]
        simp
      rw [if_neg hc]
      rw [ih s hs (fun g hg => hstate g (List.mem_cons_of_mem _ hg)) hnd2.2]
      simp [hbusy]
    · have hr : rx station = false := by
        revert hbusy
        cases rx station <;> simp
      have hc : (!E.GetRxActive s.mClient_ station) = true := by
        rw [hrx, hr]
        rfl
      rw [if_pos hc]
      rw [ih (s.call E (.SetRx station (!E.GetRxState s.mClient_ station)))
        (fun g => (hA s.mClient_ station _ (by rw [hrx, hr]) g).trans (hs g))
        (fun g hg => by
          have hne : g ≠ station := fun h => hnd2.1 (h ▸ hg)
          exact (hS s.mClient_ station _ g hne).trans
            (hstate g (List.mem_cons_of_mem _ hg)))
        hnd2.2]
      have h0 := hstate station (List.mem_cons_self _ _)
      simp [hr, h0]

/-- C3: one pass of rx-toggle processing.  For every engine: the queue after the pass is a
sublist of the queue before, and the commands issued are `SetRx` calls for queued
frequencies, each made at a moment when the engine reports that frequency as not receiving
and with the negation of the rx-enabled flag it reports at that moment.  For an engine
whose receiving report is not changed by such a call: a queued frequency `f` has been
dequeued and a `SetRx f` command has been issued exactly when the engine reported rx-active
false; when it reported true, `f` is still queued and no `SetRx f` was issued.  If moreover
`SetRx` on one frequency leaves the rx-enabled flag of the others alone and the queue has
no duplicates, the commands are `SetRx f (not GetRxState f)` for the non-receiving queued
frequencies in queue order. -/
theorem C3_rx_toggle_completes_iff_not_receiving {σ : Type} (E : Engine σ) (s : App σ) :
    List.Sublist (processPendingRxChange E s).StationsPendingRxChange
      s.StationsPendingRxChange ∧
    (∃ toggles : List (Int × Bool),
      List.Sublist (toggles.map Prod.fst) s.StationsPendingRxChange ∧
      (processPendingRxChange E s).issued =
        s.issued ++ toggles.map (fun t => Cmd.SetRx t.1 t.2) ∧
      rxToggleTrace E s.mClient_ (toggles.map (fun t => Cmd.SetRx t.1 t.2)) = true) ∧
    ((∀ e f b, E.GetRxActive e f = false →
        ∀ g, E.GetRxActive (E.exec e (.SetRx f b)) g = E.GetRxActive e g) →
      (∀ f ∈ s.StationsPendingRxChange,
        ((f ∉ (processPendingRxChange E s).StationsPendingRxChange ∧
            ∃ b, Cmd.SetRx f b ∈ (processPendingRxChange E s).issued.drop s.issued.length) ↔
          E.GetRxActive s.mClient_ f = false) ∧
        (E.GetRxActive s.mClient_ f = true →
          f ∈ (processPendingRxChange E s).StationsPendingRxChange ∧
          ∀ b, Cmd.SetRx f b ∉ (processPendingRxChange E s).issued.drop s.issued.length)) ∧
      ((∀ e f b g, g ≠ f → E.GetRxState (E.exec e (.SetRx f b)) g = E.GetRxState e g) →
        s.StationsPendingRxChange.Nodup →
        (processPendingRxChange E s).issued.drop s.issued.length =
          (s.StationsPendingRxChange.filter (fun f => !E.GetRxActive s.mClient_ f)).map
            (fun f => Cmd.SetRx f (!E.GetRxState s.mClient_ f)))) := by
  have ht := pendingRxChangeLoop_trace E s.StationsPendingRxChange s
  refine ⟨ht.1, ht.2, ?_⟩
  intro hA
  obtain ⟨hq, toggles, htg, hi⟩ := pendingRxChangeLoop_spec E hA (E.GetRxActive s.mClient_)
    s.StationsPendingRxChange s (fun _ => rfl)
  have hq2 : (processPendingRxChange E s).StationsPendingRxChange =
      s.StationsPendingRxChange.filter (E.GetRxActive s.mClient_) := hq
  have hdrop : (processPendingRxChange E s).issued.drop s.issued.length =
      toggles.map (fun t => Cmd.SetRx t.1 t.2) := by
    have hi2 : (processPendingRxChange E s).issued =
        s.issued ++ toggles.map (fun t => Cmd.SetRx t.1 t.2) := hi
    rw [hi2]
    simp
  have hmem : ∀ f b, Cmd.SetRx f b ∈ toggles.map (fun t => Cmd.SetRx t.1 t.2) →
      f ∈ s.StationsPendingRxChange.filter (fun f => !E.GetRxActive s.mClient_ f) := by
    intro f b hfb
    rw [List.mem_map] at hfb
    obtain ⟨t, ht1, ht2⟩ := hfb
    injection ht2 with h1 h2
    rw [← htg, List.mem_map]
    exact ⟨t, ht1, h1⟩
  refine ⟨?_, ?_⟩
  · intro f hf
    rw [hdrop, hq2]
    refine ⟨⟨?_, ?_⟩, ?_⟩
    · rintro ⟨h1, -⟩
      have h1b : ¬ (E.GetRxActive s.mClient_ f = true) := fun hb =>
        h1 (List.mem_filter.2 ⟨hf, hb⟩)
      simpa using h1b
    · intro hidle
      refine ⟨by simp [List.mem_filter, hidle], ?_⟩
      have hin : f ∈ toggles.map Prod.fst := by
        rw [htg]
        exact List.mem_filter.2 ⟨hf, by simp [hidle]⟩
      rw [List.mem_map] at hin
      obtain ⟨t, ht1, ht2⟩ := hin
      exact ⟨t.2, List.mem_map.2 ⟨t, ht1, by rw [ht2]⟩⟩
    · intro hbusy
      refine ⟨List.mem_filter.2 ⟨hf, hbusy⟩, ?_⟩
      intro b hb
      have := hmem f b hb
      rw [List.mem_filter] at this
      simp [hbusy] at this
  · intro hS hnd
    have hv := pendingRxChangeLoop_values E hA hS (E.GetRxActive s.mClient_)
      (E.GetRxState s.mClient_) s.StationsPendingRxChange s (fun _ => rfl)
      (fun _ _ => rfl) hnd
    have hv2 : (processPendingRxChange E s).issued = s.issued ++
        (s.StationsPendingRxChange.filter (fun f => !E.GetRxActive s.mClient_ f)).map
          (fun f => Cmd.SetRx f (!E.GetRxState s.mClient_ f)) := hv
    rw [hv2]
    simp

theorem radioEngine_setRx_other (e : Radio) (f : Int) (b : Bool) (g : Int) (h : g ≠ f) :
    radioEngine.GetRxState (radioEngine.exec e (.SetRx f b)) g = radioEngine.GetRxState e g := by
  cases b <;> simp [radioEngine, h]

/-- C3 on a concrete queue: with 118.725 receiving and 119.725 not, the pass dequeues
119.725 and switches its rx off (it was on), while 118.725 stays queued untouched. -/
theorem C3_rx_toggle_completes_iff_not_receiving_witness :
    (119725000 ∉ (processPendingRxChange radioEngine rxToggleExample).StationsPendingRxChange ∧
      ∃ b, Cmd.SetRx 119725000 b ∈
        (processPendingRxChange radioEngine rxToggleExample).issued.drop
          rxToggleExample.issued.length) ∧
    (118725000 ∈ (processPendingRxChange radioEngine rxToggleExample).StationsPendingRxChange ∧
      ∀ b, Cmd.SetRx 118725000 b ∉
        (processPendingRxChange radioEngine rxToggleExample).issued.drop
          rxToggleExample.issued.length) ∧
    (processPendingRxChange radioEngine rxToggleExample).issued.drop
        rxToggleExample.issued.length = [Cmd.SetRx 119725000 false] :=
  ⟨((((C3_rx_toggle_completes_iff_not_receiving radioEngine rxToggleExample).2.2
        (fun _ _ _ _ _ => rfl)).1 119725000 (by decide)).1).2 (by decide),
   (((C3_rx_toggle_completes_iff_not_receiving radioEngine rxToggleExample).2.2
        (fun _ _ _ _ _ => rfl)).1 118725000 (by decide)).2 (by decide),
   (((C3_rx_toggle_completes_iff_not_receiving radioEngine rxToggleExample).2.2
        (fun _ _ _ _ _ => rfl)).2 radioEngine_setRx_other (by decide)).trans (by decide)⟩

/-! ## Set semantics of the pending queues -/

theorem rxButton_nodup {σ : Type} (E : Engine σ) (s : App σ) (el : StationElement)
    (h : s.StationsPendingRxChange.Nodup) :
    (rxButton E s el).StationsPendingRxChange.Nodup := by
  unfold rxButton
  simp only
  split
  · split
    · split
      · exact h
      · rename_i hmem
        refine List.Nodup.append h (List.nodup_singleton _) ?_
        intro a ha hb
        rw [List.mem_singleton] at hb
        exact hmem (hb ▸ ha)
    · exact h
  · exact h

theorem processPendingRxChange_nodup {σ : Type} (E : Engine σ) (s : App σ)
    (h : s.StationsPendingRxChange.Nodup) :
    (processPendingRxChange E s).StationsPendingRxChange.Nodup :=
  List.Nodup.sublist (pendingRxChangeLoop_trace E s.StationsPendingRxChange s).1 h

/-- C4 at its failing input: a station whose frequency is transmitting is deleted by the
user, the next removal pass leaves the frequency queued, and the user deletes the station
again; the removal queue then holds 118725000 twice. -/
theorem C4_delete_twice_queues_twice :
    (deleteSelected
        (processPendingRemoval radioEngine
          (deleteSelected busyStationExample
            (StationElement.build gridUtil "EGLL_TWR" 118725000)))
        (StationElement.build gridUtil "EGLL_TWR" 118725000)).StationsPendingRemoval
      = [118725000, 118725000] ∧
    ¬ (deleteSelected
        (processPendingRemoval radioEngine
          (deleteSelected busyStationExample
            (StationElement.build gridUtil "EGLL_TWR" 118725000)))
        (StationElement.build gridUtil "EGLL_TWR" 118725000)).StationsPendingRemoval.Nodup := by
  constructor
  · decide
  · decide

/-! ## StationsDiscovered -/

theorem insertIfAbsent_eq_specUpsert (FetchedStations : List StationElement)
    (el : StationElement) : insertIfAbsent FetchedStations el = specUpsert FetchedStations el := by
  unfold specUpsert
  by_cases h : ∃ e ∈ FetchedStations, e.freq = el.freq
  · rw [if_pos h, insertIfAbsent_of_exists h]
  · rw [if_neg h, insertIfAbsent_of_not_exists h]

theorem normalizeDiscovered_eq_specNormalize (U : Util) (frequency : Int) :
    normalizeDiscovered U frequency = specNormalize U frequency := by
  unfold normalizeDiscovered specNormalize
  cases U.isValid8_33kHzChannel frequency <;> simp

theorem vccsLoop_eq_foldl (U : Util) (stations : List (String × Int)) :
    ∀ FetchedStations : List StationElement,
      vccsLoop U stations FetchedStations =
        stations.foldl
          (fun r p => insertIfAbsent r (StationElement.build U p.1 (normalizeDiscovered U p.2)))
          FetchedStations := by
  induction stations with
  | nil => intro reg; rfl
  | cons p rest ih =>
    intro reg
    rw [vccsLoop_cons, ih]
    rfl

theorem vccsLoop_snoc (U : Util) (pre : List (String × Int)) (p : String × Int)
    (FetchedStations : List StationElement) :
    vccsLoop U (pre ++ [p]) FetchedStations =
      insertIfAbsent (vccsLoop U pre FetchedStations)
        (StationElement.build U p.1 (normalizeDiscovered U p.2)) := by
  rw [vccsLoop_eq_foldl, vccsLoop_eq_foldl, List.foldl_append]
  rfl

theorem vccsLoop_extends (U : Util) (stations : List (String × Int)) :
    ∀ FetchedStations : List StationElement,
      ∃ added, vccsLoop U stations FetchedStations = FetchedStations ++ added := by
  induction stations with
  | nil => intro reg; exact ⟨[], by simp [vccsLoop]⟩
  | cons p rest ih =>
    intro reg
    rw [vccsLoop_cons]
    obtain ⟨added, h⟩ := ih
      (insertIfAbsent reg (StationElement.build U p.1 (normalizeDiscovered U p.2)))
    rw [h]
    by_cases hx : ∃ e ∈ reg, e.freq = (StationElement.build U p.1 (normalizeDiscovered U p.2)).freq
    · rw [insertIfAbsent_of_exists hx]
      exact ⟨added, rfl⟩
    · rw [insertIfAbsent_of_not_exists hx]
      exact ⟨StationElement.build U p.1 (normalizeDiscovered U p.2) :: added, by simp⟩

theorem vccsLoop_eq_spec (U : Util) (stations : List (String × Int))
    (FetchedStations : List StationElement) :
    vccsLoop U stations FetchedStations =
      specStationsDiscovered U true stations FetchedStations := by
  rw [vccsLoop_eq_foldl]
  simp only [specStationsDiscovered, if_true]
  congr 1
  funext r p
  rw [insertIfAbsent_eq_specUpsert, normalizeDiscovered_eq_specNormalize]

theorem onVccsReceived_eq_spec {σ : Type} (U : Util) (E : Engine σ) (s : App σ)
    (stations : List (String × Int)) :
    onVccsReceived U E s stations =
      { s with
        FetchedStations :=
          specStationsDiscovered U (E.IsVoiceConnected s.mClient_) stations s.FetchedStations } := by
  unfold onVccsReceived
  cases h : E.IsVoiceConnected s.mClient_
  · simp [specStationsDiscovered]
  · simp only [if_true]
    rw [vccsLoop_eq_spec]

/-- C7: the StationsDiscovered event.  With both payloads present, `eventCallback` runs the
discovery branch; that branch changes nothing but the registry, which becomes what the
spec describes (each entry in turn: frequency rounded when not a valid channel, kept
otherwise; appended iff no entry with that frequency is in the registry at that point,
entries appended earlier in the same event included).  When the voice session is not
connected the state is unchanged.  When it is connected, the old registry is kept as a
prefix and processing one more mapping entry is an insert-if-absent on the registry
reached so far.  A raw 118728000 that is not a valid channel is stored as its rounded
channel, which differs from 118728000 as soon as the rounded channel is valid. -/
theorem C7_stations_discovered {σ : Type} (U : Util) (E : Engine σ) (s : App σ)
    (stations : List (String × Int)) :
    (∀ data : Pointee,
      eventCallback U E s .VccsReceived (some data) (some (.ofStationMap stations)) =
        .ok (onVccsReceived U E s stations)) ∧
    onVccsReceived U E s stations =
      { s with
        FetchedStations :=
          specStationsDiscovered U (E.IsVoiceConnected s.mClient_) stations s.FetchedStations } ∧
    (E.IsVoiceConnected s.mClient_ = false → onVccsReceived U E s stations = s) ∧
    (E.IsVoiceConnected s.mClient_ = true →
      (∃ added, (onVccsReceived U E s stations).FetchedStations = s.FetchedStations ++ added) ∧
      (∀ (pre : List (String × Int)) (p : String × Int),
        (onVccsReceived U E s (pre ++ [p])).FetchedStations =
          specUpsert (onVccsReceived U E s pre).FetchedStations
            (StationElement.build U p.1 (specNormalize U p.2))) ∧
      (∀ callsign : String, U.isValid8_33kHzChannel 118728000 = false →
        (onVccsReceived U E s [(callsign, 118728000)]).FetchedStations =
          specUpsert s.FetchedStations
            (StationElement.build U callsign (U.round8_33kHzChannel 118728000)) ∧
        (U.isValid8_33kHzChannel (U.round8_33kHzChannel 118728000) = true →
          U.round8_33kHzChannel 118728000 ≠ 118728000))) := by
  refine ⟨fun _ => rfl, onVccsReceived_eq_spec U E s stations, ?_, ?_⟩
  · intro h
    simp [onVccsReceived, h]
  · intro h
    refine ⟨?_, ?_, ?_⟩
    · simp only [onVccsReceived, h, if_true]
      exact vccsLoop_extends U stations s.FetchedStations
    · intro pre p
      simp only [onVccsReceived, h, if_true]
      rw [vccsLoop_snoc, insertIfAbsent_eq_specUpsert, normalizeDiscovered_eq_specNormalize]
    · intro callsign hv
      refine ⟨?_, ?_⟩
      · simp only [onVccsReceived, h, if_true]
        rw [vccsLoop_cons, insertIfAbsent_eq_specUpsert]
        simp [vccsLoop, normalizeDiscovered, hv]
      · intro hr heq
        rw [heq, hv] at hr
        exact Bool.noConfusion hr

/-- C7 on concrete inputs: disconnected, a discovery leaves the state alone; connected, a
raw 118728000 is stored as 118730000, and a second callsign on the same channel is not
added. -/
theorem C7_stations_discovered_witness :
    onVccsReceived gridUtil radioEngine (App.init { Radio.idle with voice := false })
        [("EGLL_TWR", 118728000)] = App.init { Radio.idle with voice := false } ∧
    (onVccsReceived gridUtil radioEngine (App.init Radio.idle)
        [("EGLL_TWR", 118728000)]).FetchedStations =
      [StationElement.build gridUtil "EGLL_TWR" 118730000] ∧
    gridUtil.round8_33kHzChannel 118728000 ≠ 118728000 ∧
    (onVccsReceived gridUtil radioEngine (App.init Radio.idle)
        ([("EGLL_TWR", 118728000)] ++ [("EGLL_GND", 118730000)])).FetchedStations =
      [StationElement.build gridUtil "EGLL_TWR" 118730000] :=
  ⟨(C7_stations_discovered gridUtil radioEngine
      (App.init { Radio.idle with voice := false }) [("EGLL_TWR", 118728000)]).2.2.1 rfl,
   (((C7_stations_discovered gridUtil radioEngine (App.init Radio.idle) []).2.2.2 rfl).2.2
      "EGLL_TWR" (by decide)).1.trans (by decide),
   (((C7_stations_discovered gridUtil radioEngine (App.init Radio.idle) []).2.2.2 rfl).2.2
      "EGLL_TWR" (by decide)).2 (by decide),
   (((C7_stations_discovered gridUtil radioEngine (App.init Radio.idle) []).2.2.2 rfl).2.1
      [("EGLL_TWR", 118728000)] ("EGLL_GND", 118730000)).trans (by decide)⟩

/-! ## Validity of the stored frequencies -/

theorem gridValid_gridRound (f : Int) : gridValid (gridRound f) = true := by
  unfold gridValid gridRound
  simp only [Bool.or_eq_true, beq_iff_eq]
  split_ifs <;> omega

theorem gridUtil_normalizing : gridUtil.Normalizing :=
  ⟨gridValid_gridRound, gridValid_gridRound⟩

theorem allValid_insertIfAbsent (U : Util) {FetchedStations : List StationElement}
    {el : StationElement} (h : AllValid U FetchedStations)
    (hel : U.isValid8_33kHzChannel el.freq = true) :
    AllValid U (insertIfAbsent FetchedStations el) := by
  by_cases hx : ∃ e ∈ FetchedStations, e.freq = el.freq
  · rw [insertIfAbsent_of_exists hx]
    exact h
  · rw [insertIfAbsent_of_not_exists hx]
    intro e he
    rcases List.mem_append.1 he with h1 | h1
    · exact h e h1
    · rw [List.mem_singleton] at h1
      rw [h1]
      exact hel

theorem valid_normalizeDiscovered (U : Util) (hU : U.Normalizing) (f : Int) :
    U.isValid8_33kHzChannel (normalizeDiscovered U f) = true := by
  unfold normalizeDiscovered
  cases h : U.isValid8_33kHzChannel f
  · simpa using hU.1 f
  · simpa using h

theorem allValid_vccsLoop (U : Util) (hU : U.Normalizing) (stations : List (String × Int)) :
    ∀ FetchedStations : List StationElement, AllValid U FetchedStations →
      AllValid U (vccsLoop U stations FetchedStations) := by
  induction stations with
  | nil => intro reg h; exact h
  | cons p rest ih =>
    intro reg h
    rw [vccsLoop_cons]
    exact ih _ (allValid_insertIfAbsent U h (valid_normalizeDiscovered U hU p.2))

theorem allValid_iff_map (U : Util) (l : List StationElement) :
    AllValid U l ↔ ∀ f ∈ l.map (·.freq), U.isValid8_33kHzChannel f = true := by
  simp [AllValid]

theorem allValid_of_sublist (U : Util) {l l2 : List StationElement} (hs : List.Sublist l2 l)
    (h : AllValid U l) : AllValid U l2 :=
  fun e he => h e (hs.subset he)

theorem pendingRemovalLoop_session {σ : Type} (E : Engine σ) (queue : List Int) :
    ∀ s : App σ, (pendingRemovalLoop E queue s).2.session_frequency = s.session_frequency := by
  induction queue with
  | nil => intro s; rfl
  | cons station rest ih =>
    intro s
    unfold pendingRemovalLoop
    split
    · rw [ih]
      rfl
    · exact ih s

theorem bootstrap_session {σ : Type} (U : Util) (E : Engine σ) (s : App σ) :
    (bootstrap U E s).session_frequency = s.session_frequency := by
  unfold bootstrap
  split
  · simp only [App.call]
    split <;> split <;> rfl
  · rfl

theorem manualAdd_session {σ : Type} (U : Util) (E : Engine σ) (s : App σ)
    (pilotFound : Bool) :
    (manualAdd U E s pilotFound).session_frequency = s.session_frequency := by
  unfold manualAdd
  split
  · simp only [App.call, App.errorModal]
    split
    · rfl
    · split
      · split <;> rfl
      · rfl
  · rfl

theorem valid_applyOp {σ : Type} (U : Util) (E : Engine σ) (hU : U.Normalizing)
    (hunicom : U.isValid8_33kHzChannel U.kUnicomFrequency = true) (s : App σ) (op : Op σ)
    (hop : op.sessionValid U = true) (hreg : AllValid U s.FetchedStations)
    (hsess : U.isValid8_33kHzChannel s.session_frequency = true) :
    AllValid U (applyOp U E s op).FetchedStations ∧
    U.isValid8_33kHzChannel (applyOp U E s op).session_frequency = true := by
  cases op with
  | StationsDiscovered stations =>
    simp only [applyOp, onVccsReceived]
    split
    · exact ⟨allValid_vccsLoop U hU stations _ hreg, hsess⟩
    · exact ⟨hreg, hsess⟩
  | TransceiverCountUpdated callsign =>
    simp only [applyOp, onStationTransceiversUpdated]
    have hm := updateFirst_map_freq (fun fs => fs.callsign == callsign)
      (fun fs => { fs with
        transceivers := E.GetTransceiverCountForStation s.mClient_ callsign })
      (fun _ => rfl) s.FetchedStations
    refine ⟨?_, hsess⟩
    rw [allValid_iff_map, hm, ← allValid_iff_map]
    exact hreg
  | StationLookupResult found station =>
    simp only [applyOp]
    split
    · refine ⟨?_, ?_⟩
      · rw [onStationFound_stations]
        exact allValid_insertIfAbsent U hreg (hU.2 station.2)
      · unfold onStationFound
        simp only
        split <;> exact hsess
    · exact ⟨hreg, hsess⟩
  | Bootstrap =>
    simp only [applyOp]
    refine ⟨?_, ?_⟩
    · rw [bootstrap_stations]
      split
      · exact allValid_insertIfAbsent U hreg hsess
      · exact hreg
    · rw [bootstrap_session]
      exact hsess
  | ManualAdd text pilotFound =>
    simp only [applyOp]
    refine ⟨?_, ?_⟩
    · rcases manualAdd_stations U E { s with station_auto_add_callsign := text } pilotFound with
        h1 | ⟨_, h2⟩
      · rw [h1]
        exact hreg
      · rw [h2]
        intro e he
        rcases List.mem_append.1 he with h3 | h3
        · exact hreg e h3
        · rw [List.mem_singleton] at h3
          rw [h3]
          exact hunicom
    · rw [manualAdd_session]
      exact hsess
  | RemovalProcessing =>
    simp only [applyOp, processPendingRemoval]
    refine ⟨allValid_of_sublist U (pendingRemovalLoop_sublist E _ s) hreg, ?_⟩
    have hs := pendingRemovalLoop_session E s.StationsPendingRemoval s
    show U.isValid8_33kHzChannel
      (pendingRemovalLoop E s.StationsPendingRemoval s).2.session_frequency = true
    rw [hs]
    exact hsess
  | EngineChanged e => exact ⟨hreg, hsess⟩
  | SessionChanged callsign frequency facility => exact ⟨hreg, hop⟩

theorem valid_runOps {σ : Type} (U : Util) (E : Engine σ) (hU : U.Normalizing)
    (hunicom : U.isValid8_33kHzChannel U.kUnicomFrequency = true) (ops : List (Op σ)) :
    ∀ s : App σ, (∀ op ∈ ops, op.sessionValid U = true) → AllValid U s.FetchedStations →
      U.isValid8_33kHzChannel s.session_frequency = true →
      AllValid U (runOps U E s ops).FetchedStations := by
  induction ops with
  | nil => intro s _ h _; exact h
  | cons op rest ih =>
    intro s hops hreg hsess
    have h := valid_applyOp U E hU hunicom s op (hops op (List.mem_cons_self _ _)) hreg hsess
    exact ih _ (fun o ho => hops o (List.mem_cons_of_mem _ ho)) h.1 h.2

/-- C8 refuted as stated: with channel helpers that do normalise (rounding and clean-up
always give a valid channel, UNICOM is a valid channel), a session frequency of 118728000
followed by the own-frequency bootstrap leaves an entry in the registry whose frequency is
not a valid channel: the bootstrap stores the session frequency as it is. -/
theorem C8_bootstrap_stores_session_frequency_unchecked :
    gridUtil.Normalizing ∧
    gridUtil.isValid8_33kHzChannel gridUtil.kUnicomFrequency = true ∧
    (runOps gridUtil radioEngine (App.init Radio.idle)
      [Op.SessionChanged "EGLL_TWR" 118728000 4, Op.Bootstrap]).FetchedStations =
        [StationElement.build gridUtil "EGLL_TWR" 118728000] ∧
    ¬ AllValid gridUtil
      (runOps gridUtil radioEngine (App.init Radio.idle)
        [Op.SessionChanged "EGLL_TWR" 118728000 4, Op.Bootstrap]).FetchedStations := by
  refine ⟨gridUtil_normalizing, by decide, by decide, ?_⟩
  intro h
  have h1 := h (StationElement.build gridUtil "EGLL_TWR" 118728000) (by decide)
  revert h1
  decide

/-- C8 as amended: when rounding and clean-up always yield a valid channel and the UNICOM
constant is one, then from a registry of valid channels and a valid session frequency,
after any sequence of StationsDiscovered, StationLookupResult, bootstrap, manual add,
removal and transceiver-count operations with arbitrary raw frequencies, in which every
session update carries a valid channel, every stored frequency is a valid channel. -/
theorem C8_registry_valid {σ : Type} (U : Util) (E : Engine σ) (s : App σ)
    (ops : List (Op σ)) (hU : U.Normalizing)
    (hunicom : U.isValid8_33kHzChannel U.kUnicomFrequency = true)
    (hops : ∀ op ∈ ops, op.sessionValid U = true) (hreg : AllValid U s.FetchedStations)
    (hsess : U.isValid8_33kHzChannel s.session_frequency = true) :
    ∀ e ∈ (runOps U E s ops).FetchedStations, U.isValid8_33kHzChannel e.freq = true :=
  valid_runOps U E hU hunicom ops s hops hreg hsess

/-- C8 as amended, on a concrete run from the empty registry: the session is given
118.725, the bootstrap runs, a discovery and a lookup bring raw frequencies off the grid,
and a pilot is added on UNICOM. -/
theorem C8_registry_valid_witness :
    gridUtil.Normalizing ∧
    (runOps gridUtil radioEngine (App.init Radio.idle)
        [Op.SessionChanged "EGLL_TWR" 118725000 4, Op.Bootstrap,
         Op.StationsDiscovered [("EGLL_APP", 119728000), ("EGLL_GND", 121701000)],
         Op.StationLookupResult true ("EGKK_TWR", 124226000),
         Op.ManualAdd "!BAW123" true]).FetchedStations.map (fun e => e.freq) =
      [118725000, 119730000, 121700000, 124225000, 122800000] ∧
    AllValid gridUtil
      (runOps gridUtil radioEngine (App.init Radio.idle)
        [Op.SessionChanged "EGLL_TWR" 118725000 4, Op.Bootstrap,
         Op.StationsDiscovered [("EGLL_APP", 119728000), ("EGLL_GND", 121701000)],
         Op.StationLookupResult true ("EGKK_TWR", 124226000),
         Op.ManualAdd "!BAW123" true]).FetchedStations :=
  ⟨gridUtil_normalizing, by decide,
   C8_registry_valid gridUtil radioEngine (App.init Radio.idle) _ gridUtil_normalizing
     (by decide) (by decide) (fun _ h => nomatch h) (by decide)⟩

/-! ## Transmit snapshot -/

theorem elapsedMilliseconds_ge (current_time timer : Int) :
    elapsedMilliseconds current_time timer ≥ 300 ↔ 300000000 ≤ current_time - timer := by
  unfold elapsedMilliseconds
  rcases Int.le_total 0 (current_time - timer) with h | h
  · rw [Int.tdiv_eq_ediv h (by norm_num)]
    omega
  · have h2 : (current_time - timer).tdiv 1000000 ≤ 0 := by
      have hn := Int.neg_tdiv (-(current_time - timer)) 1000000
      rw [neg_neg] at hn
      rw [hn, Int.tdiv_eq_ediv (by omega) (by norm_num)]
      omega
    omega

theorem refreshTransmitting_of_ge {σ : Type} (s : App σ) (live : List String)
    (current_time : Int)
    (h : elapsedMilliseconds current_time s.currentlyTransmittingApiTimer ≥ 300) :
    refreshTransmitting s live current_time =
      { s with
        currentlyTransmittingApiData := "" ++ accumulate "," live
        currentlyTransmittingApiTimer := current_time } := by
  unfold refreshTransmitting
  rw [if_pos h]

theorem refreshTransmitting_of_lt {σ : Type} (s : App σ) (live : List String)
    (current_time : Int)
    (h : ¬ elapsedMilliseconds current_time s.currentlyTransmittingApiTimer ≥ 300) :
    refreshTransmitting s live current_time = s := by
  unfold refreshTransmitting
  rw [if_neg h]

theorem rebuildTimes_chain {σ : Type} (frames : List (Int × List String)) :
    ∀ s : App σ,
      List.Chain (fun a b => 300000000 ≤ b - a) s.currentlyTransmittingApiTimer
        (rebuildTimes s frames) := by
  induction frames with
  | nil => intro s; exact List.Chain.nil
  | cons frame rest ih =>
    intro s
    obtain ⟨current_time, live⟩ := frame
    unfold rebuildTimes
    split
    · rename_i h
      refine List.Chain.cons ((elapsedMilliseconds_ge _ _).1 h) ?_
      have := ih (refreshTransmitting s live current_time)
      rw [refreshTransmitting_of_ge s live current_time h] at this ⊢
      exact this
    · rename_i h
      rw [refreshTransmitting_of_lt s live current_time h]
      exact ih s

theorem intercalate_go_eq_foldl (sep : String) (rest : List String) :
    ∀ acc : String,
      String.intercalate.go acc sep rest = rest.foldl (fun a b => a ++ sep ++ b) acc := by
  induction rest with
  | nil => intro acc; rfl
  | cons x xs ih => intro acc; simp [String.intercalate.go, ih]

theorem accumulate_eq_intercalate (sep : String) (l : List String) :
    accumulate sep l = sep.intercalate l := by
  cases l with
  | nil => rfl
  | cons x xs => simp [accumulate, String.intercalate, intercalate_go_eq_foldl]

/-- C9: over any run of frames (whatever the clock readings, non-decreasing or not), the
timestamps recorded by the snapshot rebuilds, starting from the stored timestamp, are
pairwise consecutive at least 300 ms (300000000 ns) apart; a frame changes the stored
timestamp only when the whole-millisecond difference between the clock reading and the
stored timestamp is at least 300, and then stores the clock reading; when the difference
is below 300 the frame leaves the state as it is. -/
theorem C9_snapshot_cadence {σ : Type} (s : App σ) (frames : List (Int × List String)) :
    List.Chain (fun a b => 300000000 ≤ b - a) s.currentlyTransmittingApiTimer
      (rebuildTimes s frames) ∧
    (∀ (live : List String) (current_time : Int),
      (refreshTransmitting s live current_time).currentlyTransmittingApiTimer ≠
          s.currentlyTransmittingApiTimer →
        elapsedMilliseconds current_time s.currentlyTransmittingApiTimer ≥ 300 ∧
        (refreshTransmitting s live current_time).currentlyTransmittingApiTimer =
          current_time ∧
        300000000 ≤ current_time - s.currentlyTransmittingApiTimer) ∧
    (∀ (live : List String) (current_time : Int),
      elapsedMilliseconds current_time s.currentlyTransmittingApiTimer < 300 →
        refreshTransmitting s live current_time = s) := by
  refine ⟨rebuildTimes_chain frames s, ?_, ?_⟩
  · intro live current_time hne
    by_cases h : elapsedMilliseconds current_time s.currentlyTransmittingApiTimer ≥ 300
    · refine ⟨h, ?_, (elapsedMilliseconds_ge _ _).1 h⟩
      rw [refreshTransmitting_of_ge s live current_time h]
    · rw [refreshTransmitting_of_lt s live current_time h] at hne
      exact absurd rfl hne
  · intro live current_time h
    exact refreshTransmitting_of_lt s live current_time (by omega)

/-- C9 on a concrete run from a timestamp of 0: frames at 100, 300, 450, 599.9 and 600 ms
rebuild at 300 and 600 ms only; a frame at 299.999999 ms leaves the state alone, and the
frame at 300 ms, which changes the timestamp, comes 300 ms after it. -/
theorem C9_snapshot_cadence_witness :
    rebuildTimes (App.init Radio.idle)
        [(100000000, []), (300000000, ["BAW123"]), (450000000, []), (599900000, []),
         (600000000, [])] = [300000000, 600000000] ∧
    refreshTransmitting (App.init Radio.idle) ["BAW123"] 299999999 = App.init Radio.idle ∧
    (300000000 : Int) ≤ 300000000 - (App.init Radio.idle).currentlyTransmittingApiTimer :=
  ⟨by decide,
   (C9_snapshot_cadence (App.init Radio.idle) []).2.2 ["BAW123"] 299999999 (by decide),
   ((C9_snapshot_cadence (App.init Radio.idle) []).2.1 ["BAW123"] 300000000
      (by decide)).2.2⟩

/-- C10: the snapshot refresh of a frame with live callsign list `live` and clock reading
`current_time`.  "At least 300 ms elapsed" (whole milliseconds, as the code computes them)
is the same as a difference of at least 300000000 ns.  In that case the snapshot string
becomes the live list joined with "," and the timestamp becomes `current_time`, nothing
else changes; otherwise the state, snapshot string and timestamp included, is unchanged.
The joined string is empty for the empty list and is the callsign itself for a list of
one.  In a frame without button presses the live list is the one built from the registry
and the engine. -/
theorem C10_snapshot_content {σ : Type} (E : Engine σ) (s : App σ) (live : List String)
    (current_time : Int) :
    (elapsedMilliseconds current_time s.currentlyTransmittingApiTimer ≥ 300 ↔
      300000000 ≤ current_time - s.currentlyTransmittingApiTimer) ∧
    (300000000 ≤ current_time - s.currentlyTransmittingApiTimer →
      refreshTransmitting s live current_time =
        { s with
          currentlyTransmittingApiData := ",".intercalate live
          currentlyTransmittingApiTimer := current_time }) ∧
    (current_time - s.currentlyTransmittingApiTimer < 300000000 →
      refreshTransmitting s live current_time = s) ∧
    ",".intercalate ([] : List String) = "" ∧
    (∀ callsign : String, ",".intercalate [callsign] = callsign) ∧
    frameSnapshot E s current_time =
      refreshTransmitting s (receivedCallsigns E s.mClient_ s.FetchedStations).2
        current_time := by
  refine ⟨elapsedMilliseconds_ge _ _, ?_, ?_, rfl, fun _ => rfl, rfl⟩
  · intro h
    rw [refreshTransmitting_of_ge s live current_time ((elapsedMilliseconds_ge _ _).2 h),
      accumulate_eq_intercalate]
    simp
  · intro h
    refine refreshTransmitting_of_lt s live current_time ?_
    rw [elapsedMilliseconds_ge]
    omega

/-- C10 on concrete frames, the stored timestamp being 0: at 300 ms the snapshot becomes
the joined live list and the timestamp 300 ms; at 299.999999 ms nothing changes; the live
list of a frame is read from the engine, station by station. -/
theorem C10_snapshot_content_witness :
    (refreshTransmitting (App.init Radio.idle) ["BAW123", "EZY45"]
        300000000).currentlyTransmittingApiData = "BAW123,EZY45" ∧
    (refreshTransmitting (App.init Radio.idle) ["BAW123", "EZY45"]
        300000000).currentlyTransmittingApiTimer = 300000000 ∧
    refreshTransmitting (App.init Radio.idle) ["BAW123"] 299999999 = App.init Radio.idle ∧
    (frameSnapshot radioEngine receivingExample 300000000).currentlyTransmittingApiData =
      "BAW123,EZY45" :=
  ⟨(congrArg App.currentlyTransmittingApiData
      ((C10_snapshot_content radioEngine (App.init Radio.idle) ["BAW123", "EZY45"]
        300000000).2.1 (by decide))).trans (by decide),
   congrArg App.currentlyTransmittingApiTimer
      ((C10_snapshot_content radioEngine (App.init Radio.idle) ["BAW123", "EZY45"]
        300000000).2.1 (by decide)),
   (C10_snapshot_content radioEngine (App.init Radio.idle) ["BAW123"]
        299999999).2.2.1 (by decide),
   by decide⟩

/-! ## Status API -/

theorem foldl_append_comma (items : List String) :
    ∀ acc : String,
      items.foldl (fun out it => out ++ (it ++ ",")) (acc ++ ",") =
        items.foldl (fun a b => a ++ "," ++ b) acc ++ "," := by
  induction items with
  | nil => intro acc; rfl
  | cons y ys ih =>
    intro acc
    simp only [List.foldl_cons]
    rw [← ih (acc ++ "," ++ y)]
    simp [String.append_assoc]

theorem stationsOut_cons (x : StationElement) (xs : List StationElement) :
    stationsOut (x :: xs) =
      ",".intercalate ((x :: xs).map (fun f => f.callsign ++ ":" ++ f.human_freq)) ++ "," := by
  rw [← accumulate_eq_intercalate]
  simp only [stationsOut, List.isEmpty_cons, Bool.not_false, if_true, List.foldl_cons,
    List.map_cons, accumulate]
  have h := foldl_append_comma (xs.map (fun f => f.callsign ++ ":" ++ f.human_freq))
    (x.callsign ++ ":" ++ x.human_freq)
  rw [List.foldl_map] at h
  rw [← h]
  simp

theorem trimTrailingComma_append_comma (body : String) :
    trimTrailingComma (body ++ ",") = .ok body := by
  unfold trimTrailingComma
  have hd : (body ++ ",").data = body.data ++ [','] := rfl
  rw [hd]
  simp

theorem trimTrailingComma_stationsOut (bar : List StationElement) :
    trimTrailingComma (stationsOut bar) =
      if bar = [] then .error .emptyBack
      else .ok (",".intercalate (bar.map (fun f => f.callsign ++ ":" ++ f.human_freq))) := by
  cases bar with
  | nil => rfl
  | cons x xs =>
    rw [stationsOut_cons, trimTrailingComma_append_comma]
    simp

theorem requestHandler_rx {σ : Type} (U : Util) (E : Engine σ) (s : App σ) :
    (requestHandler U E s ⟨.GET, "/rx"⟩).2 =
      if rxStations E s = [] then .error .emptyBack
      else .ok (",".intercalate
        ((rxStations E s).map (fun f => f.callsign ++ ":" ++ f.human_freq))) := by
  rw [← trimTrailingComma_stationsOut]
  rfl

theorem requestHandler_tx {σ : Type} (U : Util) (E : Engine σ) (s : App σ) :
    (requestHandler U E s ⟨.GET, "/tx"⟩).2 =
      if txStations E s = [] then .error .emptyBack
      else .ok (",".intercalate
        ((txStations E s).map (fun f => f.callsign ++ ":" ++ f.human_freq))) := by
  rw [← trimTrailingComma_stationsOut]
  rfl

/-- C11 at its failing inputs: `GET /rx` on the empty registry, and on a registry with two
rx-enabled stations while the voice session is not connected, selects no station; `out`
stays empty and the handler reads `out.back()` of the empty string instead of answering
with the empty body.  With both stations selected the body is the one of scenario B. -/
theorem C11_rx_body_undefined_when_nothing_selected :
    (requestHandler gridUtil radioEngine (App.init Radio.idle) ⟨.GET, "/rx"⟩).2 =
      .error .emptyBack ∧
    (requestHandler gridUtil radioEngine
        { receivingExample with
          mClient_ := { receivingExample.mClient_ with voice := false } } ⟨.GET, "/rx"⟩).2 =
      .error .emptyBack ∧
    (requestHandler gridUtil radioEngine receivingExample ⟨.GET, "/rx"⟩).2 =
      .ok "EGLL_TWR:118.725,EGLL_APP:119.725" := by
  refine ⟨?_, ?_, ?_⟩ <;> rfl

/-- C12 at its failing input: `GET /tx` on a registry none of whose stations has tx enabled
builds its body from the empty set; the handler reads `out.back()` of the empty string
instead of answering with the empty body.  The body of `GET /transmitting` is the stored
snapshot, empty for an empty live list. -/
theorem C12_tx_body_undefined_when_nothing_selected :
    txStations radioEngine rxToggleExample = [] ∧
    (requestHandler gridUtil radioEngine rxToggleExample ⟨.GET, "/tx"⟩).2 =
      .error .emptyBack ∧
    (requestHandler gridUtil radioEngine
        (refreshTransmitting rxToggleExample [] 300000000) ⟨.GET, "/transmitting"⟩).2 =
      .ok "" := by
  refine ⟨?_, ?_, ?_⟩ <;> rfl

/-- C13: for every request and every state, the request handler hands back the state it was
given: the registry, both pending queues, the snapshot and its timestamp, the engine state
and the log of commands issued to the engine are what they were. -/
theorem C13_status_api_read_only {σ : Type} (U : Util) (E : Engine σ) (s : App σ)
    (req : Request) :
    (requestHandler U E s req).1 = s ∧
    (requestHandler U E s req).1.FetchedStations = s.FetchedStations ∧
    (requestHandler U E s req).1.StationsPendingRemoval = s.StationsPendingRemoval ∧
    (requestHandler U E s req).1.StationsPendingRxChange = s.StationsPendingRxChange ∧
    (requestHandler U E s req).1.currentlyTransmittingApiData =
      s.currentlyTransmittingApiData ∧
    (requestHandler U E s req).1.currentlyTransmittingApiTimer =
      s.currentlyTransmittingApiTimer ∧
    (requestHandler U E s req).1.mClient_ = s.mClient_ ∧
    (requestHandler U E s req).1.issued = s.issued := by
  have h : (requestHandler U E s req).1 = s := by
    unfold requestHandler
    split_ifs <;> rfl
  rw [h]
  exact ⟨rfl, rfl, rfl, rfl, rfl, rfl, rfl, rfl⟩

/-! ## Push to talk -/

theorem pttBlock_issued {σ : Type} (E : Engine σ) (hw : Hardware) (s : App σ)
    (h : (E.IsVoiceConnected s.mClient_ && (s.ptt != ScanUnknown || s.joyStickId != -1))
      = true) :
    (pttBlock E hw s).issued = s.issued ++ [Cmd.SetPtt (pttBlock E hw s).isPttOpen] := by
  unfold pttBlock
  rw [if_pos h]
  split
  · simp only
    split <;> split <;> rfl
  · simp only
    split <;> split <;> rfl

theorem pttBlock_idle {σ : Type} (E : Engine σ) (hw : Hardware) (s : App σ)
    (h : (E.IsVoiceConnected s.mClient_ && (s.ptt != ScanUnknown || s.joyStickId != -1))
      = false) :
    pttBlock E hw s = s := by
  unfold pttBlock
  rw [if_neg (by simp [h])]

theorem pttBlock_state {σ : Type} (E : Engine σ) (hw : Hardware) (s : App σ)
    (h : (E.IsVoiceConnected s.mClient_ && (s.ptt != ScanUnknown || s.joyStickId != -1))
      = true) :
    (pttBlock E hw s).isPttOpen = pttPressed hw s := by
  unfold pttBlock pttPressed
  rw [if_pos h]
  cases hk : s.isPttOpen <;> cases hj : (s.joyStickId != -1) <;>
    cases hb : hw.isButtonPressed s.joyStickId s.joyStickPtt <;>
    cases hp : hw.isKeyPressed s.ptt <;> simp [hk, hj, hb, hp, App.call]

/-- C14 refuted as stated: the voice session is connected and a key is configured.  In a
frame where the key is held and the state is already keyed, the keyed state does not
change and `SetPtt true` is issued all the same; in a frame where nothing is pressed and
the state is already idle, `SetPtt false` is issued all the same. -/
theorem C14_set_ptt_repeated_while_held :
    (pttBlock radioEngine keysHeld (pttExample true)).isPttOpen = (pttExample true).isPttOpen ∧
    pttCommands ((pttBlock radioEngine keysHeld (pttExample true)).issued.drop
        (pttExample true).issued.length) = [Cmd.SetPtt true] ∧
    (pttBlock radioEngine nothingPressed (pttExample false)).isPttOpen =
      (pttExample false).isPttOpen ∧
    pttCommands ((pttBlock radioEngine nothingPressed (pttExample false)).issued.drop
        (pttExample false).issued.length) = [Cmd.SetPtt false] := by
  refine ⟨?_, ?_, ?_, ?_⟩ <;> decide

/-! ## VoiceSessionDisconnected -/

theorem onVoiceServerDisconnected_available {σ : Type} (s : App σ)
    (h : s.disconnectWarningSoundAvailable_ = true) :
    (onVoiceServerDisconnected s).manuallyDisconnected_ = false ∧
    (onVoiceServerDisconnected s).soundPlayed =
      s.soundPlayed + (if s.manuallyDisconnected_ then 0 else 1) := by
  unfold onVoiceServerDisconnected
  cases hm : s.manuallyDisconnected_ <;> simp [h, hm]

theorem onVoiceServerDisconnected_unavailable {σ : Type} (s : App σ)
    (h : s.disconnectWarningSoundAvailable_ = false) :
    onVoiceServerDisconnected s = s := by
  unfold onVoiceServerDisconnected
  simp [h]

/-- C15 refuted as stated: the warning sound is not available and the disconnect was
user-initiated.  The handler returns before the reset: no sound is played, and the
user-initiated flag is still true afterwards. -/
theorem C15_flag_not_reset_without_sound :
    (eventCallback gridUtil radioEngine silentDisconnectExample
        .VoiceServerDisconnected none none).map
      (fun a => (a.manuallyDisconnected_, a.soundPlayed)) = .ok (true, 0) := by
  rfl

/-- C15 as amended: handling a VoiceSessionDisconnected event, whatever its payloads, plays
the warning sound exactly when the sound is available and the disconnect was not
user-initiated (once then, not at all otherwise).  When the sound is available the
user-initiated flag is false afterwards.  When the sound is not available the handler
returns at once: the state, the user-initiated flag included, is what it was. -/
theorem C15_voice_session_disconnected {σ : Type} (U : Util) (E : Engine σ) (s : App σ)
    (data data2 : Option Pointee) :
    eventCallback U E s .VoiceServerDisconnected data data2 =
      .ok (onVoiceServerDisconnected s) ∧
    (onVoiceServerDisconnected s).soundPlayed =
      s.soundPlayed +
        (if (s.disconnectWarningSoundAvailable_ && !s.manuallyDisconnected_) = true then 1
         else 0) ∧
    (s.disconnectWarningSoundAvailable_ = true →
      (onVoiceServerDisconnected s).manuallyDisconnected_ = false) ∧
    (s.disconnectWarningSoundAvailable_ = false →
      onVoiceServerDisconnected s = s ∧
      (onVoiceServerDisconnected s).manuallyDisconnected_ = s.manuallyDisconnected_) := by
  refine ⟨rfl, ?_, ?_, ?_⟩
  · cases ha : s.disconnectWarningSoundAvailable_
    · rw [onVoiceServerDisconnected_unavailable s ha]
      simp
    · rw [(onVoiceServerDisconnected_available s ha).2]
      cases s.manuallyDisconnected_ <;> simp
  · intro ha
    exact (onVoiceServerDisconnected_available s ha).1
  · intro ha
    rw [onVoiceServerDisconnected_unavailable s ha]
    exact ⟨rfl, rfl⟩

/-- C15 as amended, on concrete states: with the sound available and a disconnect that was
user-initiated, the flag is false afterwards; with the sound unavailable the state is left
as it was. -/
theorem C15_voice_session_disconnected_witness :
    (onVoiceServerDisconnected
        { silentDisconnectExample with
          disconnectWarningSoundAvailable_ := true }).manuallyDisconnected_ = false ∧
    (onVoiceServerDisconnected silentDisconnectExample = silentDisconnectExample ∧
      (onVoiceServerDisconnected silentDisconnectExample).manuallyDisconnected_ =
        silentDisconnectExample.manuallyDisconnected_) :=
  ⟨(C15_voice_session_disconnected gridUtil radioEngine
      { silentDisconnectExample with disconnectWarningSoundAvailable_ := true }
      none none).2.2.1 rfl,
   (C15_voice_session_disconnected gridUtil radioEngine silentDisconnectExample
      none none).2.2.2 rfl⟩

/-! ## SessionError -/

theorem onAPIServerError_eq_foldl {σ : Type} (s : App σ) (err : APISessionError) :
    onAPIServerError s err = (apiServerErrorMessages err).foldl App.errorModal s := by
  cases err <;> rfl

theorem apiServerErrorMessages_injective :
    ∀ a b : APISessionError, a ≠ .NoError → b ≠ .NoError →
      apiServerErrorMessages a = apiServerErrorMessages b →
      a = b ∨ ((a = .BadPassword ∨ a = .RejectedCredentials) ∧
        (b = .BadPassword ∨ b = .RejectedCredentials)) := by
  intro a b _ _ h
  cases a <;> cases b <;> (revert h; decide)

/-- C16: a SessionError event that carries one of the seven error categories (payload
present).  `eventCallback` makes exactly one call to `errorModal`, and the state afterwards
is the state before with that one message in the sink: the registry, both pending queues
and everything else are unchanged.  Bad password and rejected credentials share the
invalid-credentials message; any two other distinct categories have distinct messages. -/
theorem C16_session_error_classified {σ : Type} (U : Util) (E : Engine σ) (s : App σ)
    (err : APISessionError) (data2 : Option Pointee) (herr : err ≠ .NoError) :
    ∃ message : String,
      apiServerErrorMessages err = [message] ∧
      eventCallback U E s .APIServerError (some (.ofSessionError err)) data2 =
        .ok (s.errorModal message) ∧
      (s.errorModal message).lastErrorModalMessage_ = message ∧
      (s.errorModal message).showErrorModal_ = true ∧
      (s.errorModal message).FetchedStations = s.FetchedStations ∧
      (s.errorModal message).StationsPendingRemoval = s.StationsPendingRemoval ∧
      (s.errorModal message).StationsPendingRxChange = s.StationsPendingRxChange ∧
      apiServerErrorMessages .BadPassword = apiServerErrorMessages .RejectedCredentials ∧
      (∀ other : APISessionError, other ≠ .NoError →
        apiServerErrorMessages other = [message] →
        other = err ∨ ((other = .BadPassword ∨ other = .RejectedCredentials) ∧
          (err = .BadPassword ∨ err = .RejectedCredentials))) := by
  have hlen : ∃ message, apiServerErrorMessages err = [message] := by
    cases err
    · exact absurd rfl herr
    all_goals exact ⟨_, rfl⟩
  obtain ⟨message, hm⟩ := hlen
  refine ⟨message, hm, ?_, rfl, rfl, rfl, rfl, rfl, rfl, ?_⟩
  · show Except.map (fun err => onAPIServerError s err) (.ok err) = _
    rw [Except.map, onAPIServerError_eq_foldl, hm]
    rfl
  · intro other ho hom
    exact apiServerErrorMessages_injective other err ho herr (hom.trans hm.symm)

/-- C16 on scenario E: the category "bad password" puts the invalid-credentials message in
the sink and leaves the rest of the state alone. -/
theorem C16_session_error_classified_witness :
    ∃ message : String,
      apiServerErrorMessages .BadPassword = [message] ∧
      eventCallback gridUtil radioEngine removalExample .APIServerError
          (some (.ofSessionError .BadPassword)) none =
        .ok (removalExample.errorModal message) ∧
      message =
        "Could not login to VATSIM.\nInvalid Credentials.\nCheck your password/cid!" :=
  match C16_session_error_classified gridUtil radioEngine removalExample .BadPassword none
      (by decide) with
  | ⟨message, h1, h2, _⟩ =>
    ⟨message, h1, h2, (List.cons.inj (h1.symm.trans rfl)).1⟩

/-! ## StationLookupResult -/

theorem onStationFound_eq {σ : Type} (U : Util) (s : App σ) (station : String × Int) :
    onStationFound U s station =
      { s with
        FetchedStations :=
          specUpsert s.FetchedStations
            (StationElement.build U station.1 (U.cleanUpFrequency station.2)) } := by
  rw [← insertIfAbsent_eq_specUpsert]
  simp only [onStationFound, insertIfAbsent, build_freq]
  split <;> rfl

/-- C17: the StationLookupResult event with both payloads present.  When `found` is true
the state changes in the registry only, which becomes the spec's upsert of an element with
the payload's callsign and the cleaned-up frequency (appended iff no entry has that
frequency), so no error message is set.  When `found` is false the registry is unchanged
and the sink holds the station-not-found message. -/
theorem C17_station_lookup_result {σ : Type} (U : Util) (E : Engine σ) (s : App σ)
    (station : String × Int) (data2 : Pointee) :
    eventCallback U E s .StationDataReceived (some (.ofBool true)) (some (.ofStation station)) =
      .ok { s with
            FetchedStations :=
              specUpsert s.FetchedStations
                (StationElement.build U station.1 (U.cleanUpFrequency station.2)) } ∧
    (StationElement.build U station.1 (U.cleanUpFrequency station.2)).callsign = station.1 ∧
    (StationElement.build U station.1 (U.cleanUpFrequency station.2)).freq =
      U.cleanUpFrequency station.2 ∧
    (onStationFound U s station).showErrorModal_ = s.showErrorModal_ ∧
    (onStationFound U s station).lastErrorModalMessage_ = s.lastErrorModalMessage_ ∧
    eventCallback U E s .StationDataReceived (some (.ofBool false)) (some data2) =
      .ok (s.errorModal "Could not find station in database.") ∧
    (s.errorModal "Could not find station in database.").FetchedStations =
      s.FetchedStations ∧
    (s.errorModal "Could not find station in database.").lastErrorModalMessage_ =
      "Could not find station in database." ∧
    (s.errorModal "Could not find station in database.").showErrorModal_ = true := by
  refine ⟨?_, rfl, rfl, ?_, ?_, rfl, rfl, rfl, rfl⟩
  · rw [← onStationFound_eq]
    rfl
  · rw [onStationFound_eq]
  · rw [onStationFound_eq]

/-! ## TransceiverCountUpdated -/

theorem updateFirst_split (p : StationElement → Bool) (f : StationElement → StationElement)
    (pre : List StationElement) (x : StationElement) (post : List StationElement)
    (hpre : ∀ e ∈ pre, p e = false) (hx : p x = true) :
    updateFirst p f (pre ++ x :: post) = pre ++ f x :: post := by
  induction pre with
  | nil => simp [updateFirst, hx]
  | cons a as ih =>
    have ha : p a = false := hpre a (List.mem_cons_self _ _)
    have ih2 := ih (fun e he => hpre e (List.mem_cons_of_mem _ he))
    simp [updateFirst, ha, ih2]

theorem updateFirst_none (p : StationElement → Bool) (f : StationElement → StationElement)
    (l : List StationElement) (h : ∀ e ∈ l, p e = false) : updateFirst p f l = l := by
  induction l with
  | nil => rfl
  | cons a as ih =>
    have ha : p a = false := h a (List.mem_cons_self _ _)
    simp [updateFirst, ha, ih (fun e he => h e (List.mem_cons_of_mem _ he))]

theorem updateFirst_length (p : StationElement → Bool) (f : StationElement → StationElement)
    (l : List StationElement) : (updateFirst p f l).length = l.length := by
  induction l with
  | nil => rfl
  | cons a as ih =>
    unfold updateFirst
    split <;> simp [ih]

theorem updateFirst_map_fields (p : StationElement → Bool) (count : Int)
    (l : List StationElement) :
    (updateFirst p (fun fs => { fs with transceivers := count }) l).map
        (fun e => (e.callsign, e.freq, e.human_freq)) =
      l.map (fun e => (e.callsign, e.freq, e.human_freq)) := by
  induction l with
  | nil => rfl
  | cons a as ih =>
    unfold updateFirst
    split <;> simp [ih]

/-- C18: the TransceiverCountUpdated event with its payload present.  `eventCallback`
changes the registry only.  If the registry splits into entries with another callsign, an
entry with callsign `c`, and a rest, the result is the same list with the transceiver
count of that first matching entry replaced by the count the engine reports for `c`; in
every case the number of entries, their order and their callsign, frequency and display
frequency are unchanged.  If no entry has callsign `c` the state is exactly unchanged. -/
theorem C18_transceiver_count_updated {σ : Type} (U : Util) (E : Engine σ) (s : App σ)
    (c : String) (data2 : Option Pointee) :
    eventCallback U E s .StationTransceiversUpdated (some (.ofString c)) data2 =
      .ok (onStationTransceiversUpdated E s c) ∧
    (∃ stations, onStationTransceiversUpdated E s c = { s with FetchedStations := stations }) ∧
    (∀ (pre : List StationElement) (x : StationElement) (post : List StationElement),
      s.FetchedStations = pre ++ x :: post → (∀ e ∈ pre, e.callsign ≠ c) → x.callsign = c →
      (onStationTransceiversUpdated E s c).FetchedStations =
        pre ++ { x with transceivers := E.GetTransceiverCountForStation s.mClient_ c } ::
          post) ∧
    (onStationTransceiversUpdated E s c).FetchedStations.length = s.FetchedStations.length ∧
    (onStationTransceiversUpdated E s c).FetchedStations.map
        (fun e => (e.callsign, e.freq, e.human_freq)) =
      s.FetchedStations.map (fun e => (e.callsign, e.freq, e.human_freq)) ∧
    ((∀ e ∈ s.FetchedStations, e.callsign ≠ c) → onStationTransceiversUpdated E s c = s) := by
  refine ⟨rfl, ⟨_, rfl⟩, ?_, ?_, ?_, ?_⟩
  · intro pre x post hsplit hpre hx
    simp only [onStationTransceiversUpdated]
    rw [hsplit]
    exact updateFirst_split _ _ pre x post (fun e he => by simpa using hpre e he)
      (by simpa using hx)
  · simp only [onStationTransceiversUpdated]
    exact updateFirst_length _ _ _
  · simp only [onStationTransceiversUpdated]
    exact updateFirst_map_fields _ _ _
  · intro hnone
    simp only [onStationTransceiversUpdated]
    rw [updateFirst_none _ _ _ (fun e he => by simpa using hnone e he)]

/-- C18 on a concrete registry: the count of EGLL_APP, second of two entries, becomes the
engine's count and EGLL_TWR is untouched; an update for a callsign that is not on the board
changes nothing. -/
theorem C18_transceiver_count_updated_witness :
    (onStationTransceiversUpdated radioEngine removalExample "EGLL_APP").FetchedStations =
      [StationElement.build gridUtil "EGLL_TWR" 118725000] ++
        { StationElement.build gridUtil "EGLL_APP" 119725000 with
          transceivers :=
            radioEngine.GetTransceiverCountForStation removalExample.mClient_ "EGLL_APP" } ::
          [] ∧
    onStationTransceiversUpdated radioEngine removalExample "EGKK_TWR" = removalExample :=
  ⟨(C18_transceiver_count_updated gridUtil radioEngine removalExample "EGLL_APP" none).2.2.1
      [StationElement.build gridUtil "EGLL_TWR" 118725000]
      (StationElement.build gridUtil "EGLL_APP" 119725000) [] rfl (by decide) rfl,
   (C18_transceiver_count_updated gridUtil radioEngine removalExample "EGKK_TWR"
      none).2.2.2.2.2 (by decide)⟩

/-! ## The error sink -/

/-- C19: `errorModal m1` followed by `errorModal m2` leaves the state that `errorModal m2`
alone leaves: the sink, a single string, holds `m2` and the pending flag is set. -/
theorem C19_last_error_wins {σ : Type} (s : App σ) (m1 m2 : String) :
    (s.errorModal m1).errorModal m2 = s.errorModal m2 ∧
    ((s.errorModal m1).errorModal m2).lastErrorModalMessage_ = m2 ∧
    ((s.errorModal m1).errorModal m2).showErrorModal_ = true := by
  exact ⟨rfl, rfl, rfl⟩

/-! ## Disconnect -/

theorem foldl_call_issued {σ : Type} (E : Engine σ) (g : StationElement → Cmd)
    (l : List StationElement) :
    ∀ s : App σ, (l.foldl (fun a f => a.call E (g f)) s).issued = s.issued ++ l.map g := by
  induction l with
  | nil => intro s; simp
  | cons x xs ih =>
    intro s
    simp only [List.foldl_cons, List.map_cons]
    rw [ih]
    simp

/-- C20: when the disconnect branch runs (the engine is connected to the voice server or
to the API, and the button was pressed or the session is no longer connected), the
commands issued are, in this order: `StopAtisPlayback` if an ATIS is playing, one
`RemoveFrequency` per registry entry in registry order, then `Disconnect`; afterwards the
registry is empty and the bootstrap flag is false. -/
theorem C20_disconnect_clears_registry {σ : Type} (E : Engine σ) (s : App σ)
    (pressed_disconnect : Bool)
    (hconn : E.IsVoiceConnected s.mClient_ = true ∨ E.IsAPIConnected s.mClient_ = true)
    (hrun : pressed_disconnect = true ∨ s.session_is_connected = false) :
    (disconnectBlock E s pressed_disconnect).issued =
      s.issued ++ (if E.IsAtisPlayingBack s.mClient_ then [Cmd.StopAtisPlayback] else []) ++
        s.FetchedStations.map (fun f => Cmd.RemoveFrequency f.freq) ++ [Cmd.Disconnect] ∧
    (disconnectBlock E s pressed_disconnect).FetchedStations = [] ∧
    (disconnectBlock E s pressed_disconnect).bootUpVccs = false := by
  have h1 : ¬ ((!E.IsVoiceConnected s.mClient_ && !E.IsAPIConnected s.mClient_) = true) := by
    rcases hconn with h | h <;> simp [h]
  have h2 : (pressed_disconnect || !s.session_is_connected) = true := by
    rcases hrun with h | h <;> simp [h]
  unfold disconnectBlock
  rw [if_neg h1, if_pos h2]
  refine ⟨?_, rfl, rfl⟩
  simp only [call_issued]
  rw [foldl_call_issued]
  cases pressed_disconnect <;> cases ha : E.IsAtisPlayingBack s.mClient_ <;>
    simp [App.call, ha]

/-- C20 on scenario C's state with the button pressed: both frequencies are released in
registry order before the engine disconnect, and the registry is empty afterwards. -/
theorem C20_disconnect_clears_registry_witness :
    (disconnectBlock radioEngine removalExample true).issued =
      [Cmd.RemoveFrequency 118725000, Cmd.RemoveFrequency 119725000, Cmd.Disconnect] ∧
    (disconnectBlock radioEngine removalExample true).FetchedStations = [] ∧
    (disconnectBlock radioEngine removalExample true).bootUpVccs = false :=
  ⟨(C20_disconnect_clears_registry radioEngine removalExample true (Or.inl rfl)
      (Or.inl rfl)).1.trans (by decide),
   (C20_disconnect_clears_registry radioEngine removalExample true (Or.inl rfl)
      (Or.inl rfl)).2.1,
   (C20_disconnect_clears_registry radioEngine removalExample true (Or.inl rfl)
      (Or.inl rfl)).2.2⟩

/-- C14 as amended: in every frame in which the voice session is connected and a
push-to-talk source is configured, exactly one command is issued to the engine, `SetPtt`
with the keyed state after the frame, which is the reading of the selected input; so when
the input is held and the state already keyed, or released and the state already idle,
the keyed state is unchanged and the call repeats it.  In a frame in which the session is
not connected or no source is configured the state is unchanged and no command is
issued. -/
theorem C14_set_ptt_every_frame {σ : Type} (E : Engine σ) (hw : Hardware) (s : App σ) :
    ((E.IsVoiceConnected s.mClient_ && (s.ptt != ScanUnknown || s.joyStickId != -1)) = true →
      (pttBlock E hw s).issued = s.issued ++ [Cmd.SetPtt (pttBlock E hw s).isPttOpen] ∧
      (pttBlock E hw s).isPttOpen = pttPressed hw s ∧
      (pttPressed hw s = s.isPttOpen →
        (pttBlock E hw s).isPttOpen = s.isPttOpen ∧
        (pttBlock E hw s).issued = s.issued ++ [Cmd.SetPtt s.isPttOpen])) ∧
    ((E.IsVoiceConnected s.mClient_ && (s.ptt != ScanUnknown || s.joyStickId != -1)) = false →
      pttBlock E hw s = s) := by
  refine ⟨fun h => ?_, pttBlock_idle E hw s⟩
  have h1 := pttBlock_issued E hw s h
  have h2 := pttBlock_state E hw s h
  refine ⟨h1, h2, fun hsame => ?_⟩
  rw [h1, h2, hsame]
  exact ⟨rfl, rfl⟩

/-- C14 as amended, on concrete frames: with the key held and the state keyed, the one
command of the frame is `SetPtt true`; with the voice session not connected, the frame
leaves the state alone. -/
theorem C14_set_ptt_every_frame_witness :
    ((pttBlock radioEngine keysHeld (pttExample true)).isPttOpen = (pttExample true).isPttOpen ∧
      (pttBlock radioEngine keysHeld (pttExample true)).issued =
        (pttExample true).issued ++ [Cmd.SetPtt (pttExample true).isPttOpen]) ∧
    pttBlock radioEngine keysHeld
        { pttExample true with mClient_ := { Radio.idle with voice := false } } =
      { pttExample true with mClient_ := { Radio.idle with voice := false } } :=
  ⟨((C14_set_ptt_every_frame radioEngine keysHeld (pttExample true)).1 (by decide)).2.2
      (by decide),
   (C14_set_ptt_every_frame radioEngine keysHeld
      { pttExample true with mClient_ := { Radio.idle with voice := false } }).2 (by decide)⟩

/-! ## Pending queues across a disconnect -/

theorem foldl_call_queues {σ : Type} (E : Engine σ) (g : StationElement → Cmd)
    (l : List StationElement) :
    ∀ s : App σ,
      (l.foldl (fun a f => a.call E (g f)) s).StationsPendingRemoval =
        s.StationsPendingRemoval ∧
      (l.foldl (fun a f => a.call E (g f)) s).StationsPendingRxChange =
        s.StationsPendingRxChange := by
  induction l with
  | nil => intro s; exact ⟨rfl, rfl⟩
  | cons x xs ih =>
    intro s
    simp only [List.foldl_cons]
    exact ih (s.call E (g x))

theorem disconnectBlock_queues {σ : Type} (E : Engine σ) (s : App σ)
    (pressed_disconnect : Bool) :
    (disconnectBlock E s pressed_disconnect).StationsPendingRemoval =
      s.StationsPendingRemoval ∧
    (disconnectBlock E s pressed_disconnect).StationsPendingRxChange =
      s.StationsPendingRxChange := by
  unfold disconnectBlock
  split
  · exact ⟨rfl, rfl⟩
  · split
    · simp only [call_StationsPendingRemoval, call_StationsPendingRxChange]
      cases pressed_disconnect <;> cases ha : E.IsAtisPlayingBack s.mClient_ <;>
        simp [ha, foldl_call_queues]
    · exact ⟨rfl, rfl⟩

/-- C21 at its failing inputs: the user presses `Disconnect` while two frequencies are
queued for removal, and while two frequencies are queued for an rx toggle.  The disconnect
branch runs (the registry is empty afterwards), and both queues still hold what they held
before. -/
theorem C21_queues_survive_disconnect :
    (disconnectBlock radioEngine removalExample true).FetchedStations = [] ∧
    (disconnectBlock radioEngine removalExample true).StationsPendingRemoval =
      [118725000, 119725000] ∧
    (disconnectBlock radioEngine rxToggleExample true).FetchedStations = [] ∧
    (disconnectBlock radioEngine rxToggleExample true).StationsPendingRxChange =
      [118725000, 119725000] := by
  refine ⟨?_, ?_, ?_, ?_⟩ <;> decide

/-! ## Safety of the trailing-comma check -/

/-- C22 at its failing inputs: `GET /tx` on the empty registry, `GET /tx` on a registry
with a tx-enabled station while the voice session is not connected, and `GET /rx` on a
registry with no rx-enabled station.  In each case no station is selected, `out` is the
empty string, and the handler reads `out.back()` of it. -/
theorem C22_back_read_on_empty_output :
    stationsOut (txStations radioEngine (App.init Radio.idle)) = "" ∧
    (requestHandler gridUtil radioEngine (App.init Radio.idle) ⟨.GET, "/tx"⟩).2 =
      .error .emptyBack ∧
    stationsOut (txStations radioEngine
      { removalExample with
        mClient_ := { removalExample.mClient_ with voice := false } }) = "" ∧
    (requestHandler gridUtil radioEngine
        { removalExample with
          mClient_ := { removalExample.mClient_ with voice := false } } ⟨.GET, "/tx"⟩).2 =
      .error .emptyBack ∧
    stationsOut (rxStations radioEngine { removalExample with mClient_ := Radio.idle }) = "" ∧
    (requestHandler gridUtil radioEngine
        { removalExample with mClient_ := Radio.idle } ⟨.GET, "/rx"⟩).2 =
      .error .emptyBack := by
  refine ⟨?_, ?_, ?_, ?_, ?_, ?_⟩ <;> rfl

/-! ## Payload reads of `eventCallback` -/

theorem eventCallback_checks_presence {σ : Type} (U : Util) (E : Engine σ) (s : App σ)
    (evt : ClientEventType) (data data2 : Option Pointee)
    (h : evt ≠ .VoiceServerError ∧ evt ≠ .VoiceServerChannelError) :
    eventCallback U E s evt data data2 ≠ .error .nullDeref := by
  obtain ⟨h1, h2⟩ := h
  cases evt
  case VoiceServerError => exact absurd rfl h1
  case VoiceServerChannelError => exact absurd rfl h2
  all_goals
    rcases data with _ | d <;> rcases data2 with _ | d2 <;>
      first
      | (simp [eventCallback]; done)
      | (cases d <;> simp [eventCallback, readString, readSessionError, Except.map]; done)
      | (cases d2 <;> simp [eventCallback, readStationMap, Except.map]; done)
      | (cases d <;> cases d2 <;>
          simp [eventCallback, readBool, readStation, Except.map, Except.bind]; done)
      | (cases d <;> cases d2 <;>
          simp [eventCallback, readBool, readStation, Except.map, Except.bind] <;>
          split <;> simp)

/-- C23 at its failing inputs: a VoiceServerError event and a VoiceServerChannelError event
whose first payload is absent.  The handler reads the error code through the null pointer;
with the code present it sets the message that carries it. -/
theorem C23_voice_server_error_reads_null_payload :
    eventCallback gridUtil radioEngine (App.init Radio.idle) .VoiceServerError none none =
      .error .nullDeref ∧
    eventCallback gridUtil radioEngine (App.init Radio.idle) .VoiceServerChannelError none
        (some (.ofInt 3)) =
      .error .nullDeref ∧
    (eventCallback gridUtil radioEngine (App.init Radio.idle) .VoiceServerError
        (some (.ofInt 7)) none).map (fun a => a.lastErrorModalMessage_) =
      .ok "Voice server returned error 7, please check the log file." := by
  refine ⟨?_, ?_, ?_⟩ <;> rfl

/-! ## Push-to-talk state -/

/-- C24: in a frame in which the voice session is connected and a source is configured
(keyboard key other than `Unknown`, or a joystick), the keyed state after the frame is the
pressed state of the joystick button when a joystick is configured, also when a key is
configured as well, and of the keyboard key otherwise, whatever the keyed state was before.
In a frame in which the session is not connected or no source is configured, the keyed
state is unchanged and no command, hence no `SetPtt`, is issued. -/
theorem C24_ptt_state_tracks_input {σ : Type} (E : Engine σ) (hw : Hardware) (s : App σ) :
    (E.IsVoiceConnected s.mClient_ = true → (s.ptt ≠ ScanUnknown ∨ s.joyStickId ≠ -1) →
      (s.joyStickId ≠ -1 →
        (pttBlock E hw s).isPttOpen = hw.isButtonPressed s.joyStickId s.joyStickPtt) ∧
      (s.joyStickId = -1 → (pttBlock E hw s).isPttOpen = hw.isKeyPressed s.ptt)) ∧
    ((E.IsVoiceConnected s.mClient_ = false ∨ (s.ptt = ScanUnknown ∧ s.joyStickId = -1)) →
      (pttBlock E hw s).isPttOpen = s.isPttOpen ∧
      (pttBlock E hw s).issued = s.issued ∧
      pttCommands ((pttBlock E hw s).issued.drop s.issued.length) = []) := by
  refine ⟨?_, ?_⟩
  · intro hc hsrc
    have hact : (E.IsVoiceConnected s.mClient_ &&
        (s.ptt != ScanUnknown || s.joyStickId != -1)) = true := by
      rcases hsrc with h | h <;> simp [hc, h]
    have hst := pttBlock_state E hw s hact
    refine ⟨fun hj => ?_, fun hj => ?_⟩
    · rw [hst]
      simp [pttPressed, hj]
    · rw [hst]
      simp [pttPressed, hj]
  · intro hoff
    have hact : (E.IsVoiceConnected s.mClient_ &&
        (s.ptt != ScanUnknown || s.joyStickId != -1)) = false := by
      rcases hoff with h | ⟨h1, h2⟩
      · simp [h]
      · simp [h1, h2]
    rw [pttBlock_idle E hw s hact]
    simp [pttCommands]

/-- C24 on concrete frames.  Idle state, key configured and held: keyed afterwards.  Keyed
state, key and joystick both configured, key held but button released: idle afterwards
(the joystick is the one that is read).  Idle state, joystick configured and its button
held: keyed afterwards.  No source configured: the state stays as it was and nothing is
issued. -/
theorem C24_ptt_state_tracks_input_witness :
    (pttBlock radioEngine keysHeld (pttExample false)).isPttOpen = true ∧
    (pttBlock radioEngine keysHeld
        { pttExample true with joyStickId := 0, joyStickPtt := 2 }).isPttOpen = false ∧
    (pttBlock radioEngine buttonsHeld
        { pttExample false with joyStickId := 0, joyStickPtt := 2 }).isPttOpen = true ∧
    ((pttBlock radioEngine keysHeld (App.init Radio.idle)).isPttOpen =
        (App.init Radio.idle : App Radio).isPttOpen ∧
      (pttBlock radioEngine keysHeld (App.init Radio.idle)).issued =
        (App.init Radio.idle : App Radio).issued ∧
      pttCommands ((pttBlock radioEngine keysHeld (App.init Radio.idle)).issued.drop
        (App.init Radio.idle : App Radio).issued.length) = []) :=
  ⟨((C24_ptt_state_tracks_input radioEngine keysHeld (pttExample false)).1 rfl
      (Or.inl (by decide))).2 rfl,
   ((C24_ptt_state_tracks_input radioEngine keysHeld
      { pttExample true with joyStickId := 0, joyStickPtt := 2 }).1 rfl
      (Or.inr (by decide))).1 (by decide),
   ((C24_ptt_state_tracks_input radioEngine buttonsHeld
      { pttExample false with joyStickId := 0, joyStickPtt := 2 }).1 rfl
      (Or.inr (by decide))).1 (by decide),
   (C24_ptt_state_tracks_input radioEngine keysHeld (App.init Radio.idle)).2
      (Or.inr ⟨rfl, rfl⟩)⟩

end VectorAudio
